import Mathlib

/-!
# Verification of the dark-vessel correlation engine

A shallow embedding of `src/backend/services/dark_vessel_service.py`
(class `DarkVesselService`) together with proofs settling the claims of
the specification.

Modelling conventions:

* Python floats are idealised as exact numbers: coordinate and score
  values are `ℚ`, transcendental geometry (the haversine distance) is
  computed in `ℝ`.  None of the claims hinge on binary64 rounding.
* Python dicts that the service reads with fixed keys are embedded as
  structures with `Option` fields (`none` = key absent or value `None`).
* Python's falsy `or` chain on numeric values (`a or b` yields `b`
  whenever `a` is `None` *or* `0.0`) is `pyOr` below.
* Date / timestamp strings are abstracted into `TimeVal`: `dt s` stands
  for a full timestamp (a string containing `"T"`, or a parsed
  `datetime` holding `s` seconds), `dateOnly d` for a bare
  `"YYYY-MM-DD"` string denoting day number `d`.  Calendar-string
  parsing is not itself modelled; no claim depends on it (the route
  code that would consume timestamps is unreachable, see `spec_C1`).
* Code paths that raise are embedded with `Except PyErr`.
-/

/-- Python exceptions that the embedded code can raise. -/
inductive PyErr where
  | attributeError
  | typeError
  | indexError
deriving DecidableEq, Repr

/-- Abstraction of the date/timestamp values carried by upstream records:
`dt s` a timestamp with second precision `s`, `dateOnly d` a bare
`YYYY-MM-DD` date with day number `d`. -/
inductive TimeVal where
  | dt (sec : ℤ)
  | dateOnly (day : ℤ)
deriving DecidableEq, Repr

/-- Python's `a or b` on optional numbers: `None` and `0.0` are falsy, so
the left value is kept only when present and nonzero.  (`0.0 or None`
is `None`; `None or 0.0` is `0.0`.) -/
def pyOr (a b : Option ℚ) : Option ℚ :=
  match a with
  | some v => if v = 0 then b else some v
  | none => b

/-- Python's `a or b` on optional time values.  A present `TimeVal`
models a nonempty string or a `datetime` object, both truthy, so this
is plain `orElse`.  (An empty-string date, which would be falsy, is not
representable in the model; the upstream API never produces one.) -/
def pyOrT (a b : Option TimeVal) : Option TimeVal :=
  match a with
  | some v => some v
  | none => b

/-- GeoJSON-style geometry object as read by `extract_point_data`:
`geometry["type"]` and `geometry["coordinates"]` (where `coordinates`
is `some l` only when the value `isinstance(..., list)`). -/
structure Geometry where
  typ : String
  coordinates : Option (List ℚ)
deriving DecidableEq, Repr

/-- A detection / gap-event record: the dictionary keys that
`DarkVesselService` reads.  `none` means the key is absent (or holds
`None`).  `endTs` stands for the `"end"` key. -/
structure Item where
  latitude : Option ℚ := none
  lat : Option ℚ := none
  lat_center : Option ℚ := none
  center_lat : Option ℚ := none
  startLat : Option ℚ := none
  endLat : Option ℚ := none
  centerLat : Option ℚ := none
  longitude : Option ℚ := none
  lon : Option ℚ := none
  lon_center : Option ℚ := none
  center_lon : Option ℚ := none
  startLon : Option ℚ := none
  endLon : Option ℚ := none
  centerLon : Option ℚ := none
  geometry : Option Geometry := none
  date : Option TimeVal := none
  timestamp : Option TimeVal := none
  startTs : Option TimeVal := none
  endTs : Option TimeVal := none
  detections : Option ℤ := none
  matched : Option Bool := none
deriving DecidableEq, Repr

/-! ## Geodesy primitive: `_haversine_distance` (lines 305-321) -/

/-- `math.radians`. -/
noncomputable def radians (deg : ℝ) : ℝ := deg * Real.pi / 180

/-- `math.atan2 y x` (C99 semantics, as used by Python's `math.atan2`;
`atan2 0 0 = 0`). -/
noncomputable def atan2 (y x : ℝ) : ℝ :=
  if 0 < x then Real.arctan (y / x)
  else if x < 0 then
    (if 0 ≤ y then Real.arctan (y / x) + Real.pi
     else Real.arctan (y / x) - Real.pi)
  else
    (if 0 < y then Real.pi / 2
     else if y < 0 then -(Real.pi / 2)
     else 0)

/-- The haversine intermediate
`a = sin²(Δlat/2) + cos(lat1)·cos(lat2)·sin²(Δlon/2)` (line 317-318). -/
noncomputable def hav_a (lat1 lon1 lat2 lon2 : ℝ) : ℝ :=
  Real.sin (radians (lat2 - lat1) / 2) ^ 2 +
    Real.cos (radians lat1) * Real.cos (radians lat2) *
      Real.sin (radians (lon2 - lon1) / 2) ^ 2

/-- `DarkVesselService._haversine_distance(lat1, lon1, lat2, lon2)`:
haversine formula with Earth radius 6371 km
(`c = 2·atan2(√a, √(1-a))`, result `R·c`). -/
noncomputable def haversineDistance (lat1 lon1 lat2 lon2 : ℝ) : ℝ :=
  6371 * (2 * atan2 (Real.sqrt (hav_a lat1 lon1 lat2 lon2))
    (Real.sqrt (1 - hav_a lat1 lon1 lat2 lon2)))

lemma atan2_zero_one : atan2 0 1 = 0 := by
  simp [atan2, Real.arctan_zero]

lemma arctan_nonneg {x : ℝ} (hx : 0 ≤ x) : 0 ≤ Real.arctan x := by
  have h := Real.arctan_strictMono.monotone hx
  rwa [Real.arctan_zero] at h

lemma atan2_nonneg {y x : ℝ} (hy : 0 ≤ y) : 0 ≤ atan2 y x := by
  unfold atan2
  by_cases h1 : 0 < x
  · simp only [if_pos h1]
    exact arctan_nonneg (div_nonneg hy h1.le)
  · simp only [if_neg h1]
    by_cases h2 : x < 0
    · simp only [if_pos h2, if_pos hy]
      nlinarith [Real.neg_pi_div_two_lt_arctan (y / x), Real.pi_pos]
    · simp only [if_neg h2]
      by_cases h3 : 0 < y
      · simp only [if_pos h3]
        positivity
      · simp only [if_neg h3, if_neg (not_lt.mpr hy)]
        exact le_refl 0

lemma hav_a_self (lat lon : ℝ) : hav_a lat lon lat lon = 0 := by
  unfold hav_a radians
  simp

lemma haversineDistance_self (lat lon : ℝ) :
    haversineDistance lat lon lat lon = 0 := by
  unfold haversineDistance
  rw [hav_a_self]
  simp [atan2_zero_one]

lemma hav_a_comm (lat1 lon1 lat2 lon2 : ℝ) :
    hav_a lat1 lon1 lat2 lon2 = hav_a lat2 lon2 lat1 lon1 := by
  unfold hav_a
  have h1 : radians (lat1 - lat2) = -(radians (lat2 - lat1)) := by
    unfold radians; ring
  have h2 : radians (lon1 - lon2) = -(radians (lon2 - lon1)) := by
    unfold radians; ring
  rw [h1, h2, neg_div, neg_div, Real.sin_neg, Real.sin_neg, neg_sq, neg_sq]
  ring

lemma haversineDistance_comm (lat1 lon1 lat2 lon2 : ℝ) :
    haversineDistance lat1 lon1 lat2 lon2 = haversineDistance lat2 lon2 lat1 lon1 := by
  unfold haversineDistance
  rw [hav_a_comm]

lemma haversineDistance_nonneg (lat1 lon1 lat2 lon2 : ℝ) :
    0 ≤ haversineDistance lat1 lon1 lat2 lon2 := by
  unfold haversineDistance
  have h := atan2_nonneg
    (x := Real.sqrt (1 - hav_a lat1 lon1 lat2 lon2))
    (Real.sqrt_nonneg (hav_a lat1 lon1 lat2 lon2))
  positivity

/-! ## Proximity Cluster Detector (`detect_proximity_clusters`,
`_find_clusters_for_date`, lines 323-521) -/

instance : Inhabited Item := ⟨{}⟩

/-- `det.get("latitude") or det.get("lat")` (lines 421, 439, 450, 471). -/
def detLat (d : Item) : Option ℚ := pyOr d.latitude d.lat

/-- `det.get("longitude") or det.get("lon")`. -/
def detLon (d : Item) : Option ℚ := pyOr d.longitude d.lon

lemma length_filter_not_add_length_filter {α : Type} (l : List α) (p : α → Bool) :
    (l.filter fun x => !(p x)).length + (l.filter p).length = l.length := by
  induction l with
  | nil => simp
  | cons x xs ih =>
    by_cases h : p x <;> simp [List.filter, h] <;> omega

open Classical in
/-- The neighbour test of the inner loop, lines 446-459: detection `j`
has coordinates (via the falsy-`or` chains) and lies within
`max_distance_km` of the current detection. -/
noncomputable def bfsPred (dets : List Item) (maxD : ℝ) (clat clon : ℚ) (j : ℕ) : Bool :=
  match detLat (dets.getD j default), detLon (dets.getD j default) with
  | some lat2, some lon2 =>
    decide (haversineDistance (clat : ℝ) (clon : ℝ) (lat2 : ℝ) (lon2 : ℝ) ≤ maxD)
  | _, _ => false

/-- The breadth-first expansion of `_find_clusters_for_date`
(lines 431-464): pop the queue head, absorb every still-unvisited
detection within `max_distance_km` of it (in index order), enqueue the
newcomers, and repeat.  `remaining` holds the indices not yet in
`processed`/`visited_in_cluster`; `cluster` is `cluster_indices` in
discovery order. -/
noncomputable def clusterBFS (dets : List Item) (maxD : ℝ) :
    (queue remaining cluster : List ℕ) → List ℕ
  | [], _, cluster => cluster
  | cur :: rest, remaining, cluster =>
    match detLat (dets.getD cur default), detLon (dets.getD cur default) with
    | some clat, some clon =>
      let found := remaining.filter (bfsPred dets maxD clat clon)
      clusterBFS dets maxD (rest ++ found)
        (remaining.filter fun j => !(bfsPred dets maxD clat clon j))
        (cluster ++ found)
    | _, _ => clusterBFS dets maxD rest remaining cluster
termination_by queue remaining _ => remaining.length + queue.length
decreasing_by
  · simp only [List.length_append, List.length_cons]
    have h := length_filter_not_add_length_filter remaining (bfsPred dets maxD clat clon)
    omega
  · simp only [List.length_cons]
    omega

/-- Risk tiers for clusters (`risk_indicator`, lines 497-502). -/
inductive RiskTier where
  | low
  | medium
  | high
deriving DecidableEq, Repr

/-- Python's `round(x, 2)`.  (CPython rounds half to even on binary64;
the model rounds half up — the claims only evaluate it at exact
values, never at a midpoint.) -/
noncomputable def roundTo2 (x : ℝ) : ℝ := (round (x * 100) : ℤ) / 100

/-- All unordered index pairs `(i, j)` with `i` before `j`, in the
iteration order of the nested loops of lines 491-495. -/
def pairs {α : Type} : List α → List (α × α)
  | [] => []
  | x :: xs => xs.map (fun y => (x, y)) ++ pairs xs

/-- `max_dist` accumulation of lines 491-495: maximum pairwise
haversine distance over the valid detections, starting from 0. -/
noncomputable def maxPairDist (valid : List (ℚ × ℚ × Item)) : ℝ :=
  (pairs valid).foldl
    (fun m pq => max m (haversineDistance (pq.1.1 : ℝ) (pq.1.2.1 : ℝ)
      (pq.2.1 : ℝ) (pq.2.2.1 : ℝ))) 0

/-- A proximity cluster (the dictionary built at lines 504-514; the
purely presentational `description` string is not modelled). -/
structure Cluster where
  center_latitude : ℚ
  center_longitude : ℚ
  date : Option TimeVal
  vessel_count : ℤ
  detection_count : ℕ
  detections : List Item
  max_distance_km : ℝ
  risk_indicator : RiskTier

/-- Build the cluster dictionary of lines 481-514 from the
valid-coordinate members `(lat, lon, det)`. -/
noncomputable def mkCluster (date? : Option TimeVal) (valid : List (ℚ × ℚ × Item)) : Cluster :=
  let total_vessels : ℤ := (valid.map (fun v => v.2.2.detections.getD 1)).sum
  { center_latitude := (valid.map (fun v => v.1)).sum / (valid.length : ℚ)
    center_longitude := (valid.map (fun v => v.2.1)).sum / (valid.length : ℚ)
    date := if valid.isEmpty then none else pyOrT date? (valid.headD default).2.2.date
    vessel_count := total_vessels
    detection_count := valid.length
    detections := valid.map (fun v => v.2.2)
    max_distance_km := roundTo2 (maxPairDist valid)
    risk_indicator :=
      if 3 ≤ total_vessels then .high
      else if 2 ≤ total_vessels then .medium
      else .low }

/-- The validity re-check of lines 469-474: index `j` becomes a
`(lat, lon, det)` triple when both falsy-`or` coordinate chains
produce a value. -/
def validEntry (dets : List Item) (j : ℕ) : Option (ℚ × ℚ × Item) :=
  match detLat (dets.getD j default), detLon (dets.getD j default) with
  | some la, some lo => some (la, lo, dets.getD j default)
  | _, _ => none

open Classical in
/-- The outer loop of `_find_clusters_for_date` (lines 416-519) over
detection indices: seed a BFS cluster at each unprocessed detection
with coordinates, keep it if it has ≥ 2 members with valid
coordinates, and mark its members processed. -/
noncomputable def findClustersLoop (dets : List Item) (maxD : ℝ)
    (date? : Option TimeVal) : List ℕ → List ℕ → List Cluster
  | [], _ => []
  | i :: is, processed =>
    if processed.contains i then findClustersLoop dets maxD date? is processed
    else
      match detLat (dets.getD i default), detLon (dets.getD i default) with
      | some _, some _ =>
        let remaining := (List.range dets.length).filter fun j =>
          !(processed.contains j) && j != i
        let clusterIdx := clusterBFS dets maxD [i] remaining [i]
        if 2 ≤ clusterIdx.length then
          let valid := clusterIdx.filterMap (validEntry dets)
          if valid.length < 2 then findClustersLoop dets maxD date? is processed
          else mkCluster date? valid ::
            findClustersLoop dets maxD date? is (processed ++ clusterIdx)
        else findClustersLoop dets maxD date? is processed
      | _, _ => findClustersLoop dets maxD date? is processed

/-- `_find_clusters_for_date(detections, max_distance_km, date)`. -/
noncomputable def findClustersForDate (dets : List Item) (maxD : ℝ)
    (date? : Option TimeVal) : List Cluster :=
  findClustersLoop dets maxD date? (List.range dets.length) []

/-- Append a detection to the group of its date key, preserving dict
insertion order (lines 365-377). -/
def addToGroup (groups : List (Option TimeVal × List Item)) (k : Option TimeVal)
    (d : Item) : List (Option TimeVal × List Item) :=
  match groups with
  | [] => [(k, [d])]
  | (k', ds) :: rest =>
    if k' = k then (k', ds ++ [d]) :: rest else (k', ds) :: addToGroup rest k d

/-- `detections_by_date`: partition by the `date` value; detections
with a falsy date go to the `"unknown"` partition, modelled by the
`none` key.  (A detection whose date string is literally `"unknown"`
would collide with that partition in Python; `TimeVal` cannot express
this degenerate case.) -/
def groupByDate (dets : List Item) : List (Option TimeVal × List Item) :=
  dets.foldl (fun acc d => addToGroup acc d.date d) []

/-- Total order used to model the comparison of the Python sort keys'
date component (`x.get("date", "")`).  Mixing `None` dates with string
dates would raise `TypeError` in Python when a vessel-count tie forces
the comparison; the model instead orders `none` first. -/
def tvLE : TimeVal → TimeVal → Bool
  | .dt a, .dt b => a ≤ b
  | .dateOnly a, .dateOnly b => a ≤ b
  | .dt _, .dateOnly _ => true
  | .dateOnly _, .dt _ => false

def dateKeyLE : Option TimeVal → Option TimeVal → Bool
  | none, _ => true
  | some _, none => false
  | some a, some b => tvLE a b

/-- Sort key of line 393: `(-vessel_count, date)` ascending, i.e.
vessel count descending, then date ascending. -/
def clusterLE (a b : Cluster) : Bool :=
  if a.vessel_count = b.vessel_count then dateKeyLE a.date b.date
  else decide (b.vessel_count ≤ a.vessel_count)

/-- `detect_proximity_clusters(sar_detections, max_distance_km,
same_date_only)` (lines 323-400). -/
noncomputable def detectProximityClusters (sar : List Item) (maxD : ℝ)
    (sameDateOnly : Bool) : List Cluster :=
  if sar.isEmpty then []
  else
    let clusters :=
      if sameDateOnly then
        ((groupByDate sar).filter fun g => 2 ≤ g.2.length).flatMap fun g =>
          findClustersForDate g.2 maxD g.1
      else if 2 ≤ sar.length then findClustersForDate sar maxD none
      else []
    clusters.mergeSort clusterLE

/-! ## Route Predictor (`predict_routes`, `extract_point_data`,
`_create_route_from_points`, `_connect_sar_points`, lines 523-851) -/

/-- The falsy-`or` chain for latitudes in `extract_point_data`
(lines 565-567). -/
def latChain (it : Item) : Option ℚ :=
  pyOr (pyOr (pyOr (pyOr (pyOr (pyOr it.latitude it.lat) it.lat_center)
    it.center_lat) it.startLat) it.endLat) it.centerLat

/-- The falsy-`or` chain for longitudes (lines 568-570). -/
def lonChain (it : Item) : Option ℚ :=
  pyOr (pyOr (pyOr (pyOr (pyOr (pyOr it.longitude it.lon) it.lon_center)
    it.center_lon) it.startLon) it.endLon) it.centerLon

/-- The coordinate-extraction phase of `extract_point_data`
(lines 564-580): field chains, GeoJSON `Point` fallback (whose
`coordinates[0]` / `coordinates[1]` indexing raises `IndexError` on a
too-short list), and the latitude/longitude range check.  Returns
`ok none` for a point that is dropped, `ok (some (lat, lon))` for one
that survives to the timestamp/vessel-id step. -/
def extractCoordsPhase (it : Item) : Except PyErr (Option (ℚ × ℚ)) :=
  let lat0 := latChain it
  let lon0 := lonChain it
  let geomStep : Except PyErr (Option ℚ × Option ℚ) :=
    if lat0.isNone || lon0.isNone then
      match it.geometry with
      | some g =>
        if g.typ = "Point" then
          match g.coordinates with
          | some (c0 :: c1 :: _) => .ok (some c1, some c0)
          | some _ => .error .indexError
          | none => .ok (lat0, lon0)
        else .ok (lat0, lon0)
      | none => .ok (lat0, lon0)
    else .ok (lat0, lon0)
  match geomStep with
  | .error e => .error e
  | .ok (lat?, lon?) =>
    match lat?, lon? with
    | some la, some lo =>
      if (-90 ≤ la ∧ la ≤ 90) ∧ (-180 ≤ lo ∧ lo ≤ 180) then .ok (some (la, lo))
      else .ok none
    | _, _ => .ok none

/-- The point record that `extract_point_data` would build
(line 599-602).  It is never actually built: the function raises
first (see `extractPointData`). -/
structure RoutePoint where
  lat : ℚ
  lon : ℚ
  timestamp : Option TimeVal
  date : Option TimeVal
  vessel_id : Option String
  source : String

instance : Inhabited RoutePoint := ⟨⟨0, 0, none, none, none, ""⟩⟩

/-- `extract_point_data(item)` (lines 562-602).  After the coordinate
phase succeeds, lines 583-596 parse a timestamp into a local variable
(a computation that cannot raise: the bare `except` swallows parse
failures), and line 598 then evaluates `self._extract_vessel_id(item)`.
No method `_extract_vessel_id` is defined anywhere in
`DarkVesselService`, so the attribute lookup raises `AttributeError`
for every item that reaches this line. -/
def extractPointData (it : Item) : Except PyErr (Option RoutePoint) :=
  match extractCoordsPhase it with
  | .error e => .error e
  | .ok none => .ok none
  | .ok (some _) => .error .attributeError

/-- The two collection loops of lines 604-614: extract every item,
keep the valid points, propagate the first exception. -/
def collectPoints : List Item → Except PyErr (List RoutePoint)
  | [] => .ok []
  | it :: rest =>
    match extractPointData it with
    | .error e => .error e
    | .ok none => collectPoints rest
    | .ok (some p) => (collectPoints rest).map (p :: ·)

def tvToSec : TimeVal → ℤ
  | .dt s => s
  | .dateOnly d => d * 86400

/-- `datetime.min` as a sort key: any constant below every modelled
timestamp. -/
def datetimeMinSec : ℤ := -62135596800

/-- `get_sort_key` (lines 621-629): the timestamp if present, else the
date parsed with `"%Y-%m-%d"` (which fails on a full timestamp string,
yielding `datetime.min`), else `datetime.min`. -/
def sortKey (p : RoutePoint) : ℤ :=
  match p.timestamp with
  | some tv => tvToSec tv
  | none =>
    match p.date with
    | some (.dateOnly d) => d * 86400
    | some (.dt _) => datetimeMinSec
    | none => datetimeMinSec

/-- The `[lat, lon, timestamp-or-date]` triple appended to
`route_points` (`point.get("timestamp") or point.get("date")`). -/
def toRPt (p : RoutePoint) : ℚ × ℚ × Option TimeVal := (p.lat, p.lon, pyOrT p.timestamp p.date)

/-- Insert into `vessel_routes` preserving dict insertion order
(lines 637-642). -/
def addToVGroup (gs : List (String × List RoutePoint)) (k : String)
    (p : RoutePoint) : List (String × List RoutePoint) :=
  match gs with
  | [] => [(k, [p])]
  | (k', ps) :: rest =>
    if k' = k then (k', ps ++ [p]) :: rest else (k', ps) :: addToVGroup rest k p

/-- `vessel_routes`: group the sorted points by truthy vessel id. -/
def groupByVessel (pts : List RoutePoint) : List (String × List RoutePoint) :=
  pts.foldl
    (fun acc p =>
      match p.vessel_id with
      | some v => if v = "" then acc else addToVGroup acc v p
      | none => acc) []

/-- `time_diff_hours` of the identified-vessel walk (lines 663-673):
absolute difference of timestamps in hours when both present, else of
`"%Y-%m-%d"`-parsed dates (parse failure leaves it `None`). -/
def timeDiffHours (prev cur : RoutePoint) : Option ℚ :=
  match prev.timestamp, cur.timestamp with
  | some a, some b => some (|((tvToSec b - tvToSec a : ℤ) : ℚ)| / 3600)
  | _, _ =>
    match prev.date, cur.date with
    | some (.dateOnly d1), some (.dateOnly d2) => some (|((d2 - d1 : ℤ) : ℚ)| * 24)
    | some _, some _ => none
    | _, _ => none

/-- A predicted route (the dictionary of lines 755-763).  No `Route`
value is ever constructed: `_create_route_from_points` raises before
building it (see `createRouteFromPoints`). -/
structure Route where
  route_id : String
  points : List (ℚ × ℚ × Option TimeVal)
  total_distance_km : ℝ
  duration_hours : Option ℚ
  confidence : ℝ
  vessel_id : Option String
  point_count : ℕ

/-- `total_distance` (lines 715-719): sum of consecutive haversine
legs. -/
noncomputable def routeTotalDistance (pts : List (ℚ × ℚ × Option TimeVal)) : ℝ :=
  (pts.zip pts.tail).foldl
    (fun acc pq => acc + haversineDistance (pq.1.1 : ℝ) (pq.1.2.1 : ℝ)
      (pq.2.1 : ℝ) (pq.2.2.1 : ℝ)) 0

/-- `duration_hours` (lines 722-735): from the first and last third
components; `dt` models the `datetime` branch, `dateOnly` the
string branch (`strptime(x[:10], "%Y-%m-%d")`); a mixed pair matches
neither `isinstance` branch and leaves the duration `None`. -/
def routeDurationHours (pts : List (ℚ × ℚ × Option TimeVal)) : Option ℚ :=
  match pts.head?, pts.getLast? with
  | some (_, _, some ft), some (_, _, some lt) =>
    match ft, lt with
    | .dt a, .dt b => some (|((b - a : ℤ) : ℚ)| / 3600)
    | .dateOnly a, .dateOnly b => some (|((b - a : ℤ) : ℚ)| * 24)
    | _, _ => none
  | _, _ => none

open Classical in
/-- `confidence` (lines 741-751): point-count factor capped at 1,
degraded by the speed-plausibility factor. -/
noncomputable def routeConfidence (pts : List (ℚ × ℚ × Option TimeVal))
    (dur : Option ℚ) : ℝ :=
  let base : ℝ := min ((pts.length : ℝ) / 10) 1
  match dur with
  | some d =>
    if 0 < d then
      let speed := routeTotalDistance pts / (d : ℝ)
      if 5 ≤ speed ∧ speed ≤ 60 then base * 1
      else if speed < 5 then base * 0.8
      else base * 0.6
    else base
  | none => base

/-- `_create_route_from_points(points, vessel_id)` (lines 709-763).
With fewer than 2 points it returns `None`.  Otherwise it computes
`total_distance`, `duration_hours` and `confidence`, and then the
`route_id` expression `hash(tuple(p[0:2] for p in points))` (line 753)
hashes a tuple of *list slices*; lists are unhashable, so Python
raises `TypeError` before the route dictionary is built. -/
noncomputable def createRouteFromPoints (pts : List (ℚ × ℚ × Option TimeVal))
    (vid : Option String) : Except PyErr (Option Route) :=
  if pts.length < 2 then .ok none
  else
    let _total := routeTotalDistance pts
    let _dur := routeDurationHours pts
    let _conf := routeConfidence pts (routeDurationHours pts)
    .error .typeError

open Classical in
/-- The identified-vessel segment walk (lines 650-692): `prev` is the
previous *sorted* point (`points[i-1]`), `route_points` the current
segment.  A point within the distance bound extends the segment when
the time bound holds (or no time difference is computable); otherwise
the segment is flushed (emitting a route when it meets
`min_route_length`) and the point seeds the next segment. -/
noncomputable def segmentWalk (maxT : ℚ) (maxD : ℝ) (vid : String) (mrl : ℕ) :
    (rest : List RoutePoint) → (prev : RoutePoint) →
    (route_points : List (ℚ × ℚ × Option TimeVal)) →
    Except PyErr (List (Option Route))
  | [], _, route_points =>
    if mrl ≤ route_points.length then
      (createRouteFromPoints route_points (some vid)).map (fun r => [r])
    else .ok []
  | cur :: rest, prev, route_points =>
    if haversineDistance (prev.lat : ℝ) (prev.lon : ℝ) (cur.lat : ℝ) (cur.lon : ℝ) ≤ maxD then
      match timeDiffHours prev cur with
      | none => segmentWalk maxT maxD vid mrl rest cur (route_points ++ [toRPt cur])
      | some td =>
        if td ≤ maxT then
          segmentWalk maxT maxD vid mrl rest cur (route_points ++ [toRPt cur])
        else
          if mrl ≤ route_points.length then
            match createRouteFromPoints route_points (some vid) with
            | .error e => .error e
            | .ok r => (segmentWalk maxT maxD vid mrl rest cur [toRPt cur]).map (r :: ·)
          else segmentWalk maxT maxD vid mrl rest cur [toRPt cur]
    else
      if mrl ≤ route_points.length then
        match createRouteFromPoints route_points (some vid) with
        | .error e => .error e
        | .ok r => (segmentWalk maxT maxD vid mrl rest cur [toRPt cur]).map (r :: ·)
      else segmentWalk maxT maxD vid mrl rest cur [toRPt cur]

open Classical in
/-- One vessel group of the loop at lines 645-692: re-sort, walk the
segments (the `i == 0` iteration seeds `route_points`), flush the last
segment.  With an empty group (possible only when
`min_route_length = 0`) the initial `route_points = []` is flushed
directly, appending the `None` that `_create_route_from_points`
returns for fewer than 2 points. -/
noncomputable def walkGroup (maxT : ℚ) (maxD : ℝ) (vid : String) (mrl : ℕ)
    (pts : List RoutePoint) : Except PyErr (List (Option Route)) :=
  match pts.mergeSort (fun a b => sortKey a ≤ sortKey b) with
  | [] =>
    if mrl = 0 then (createRouteFromPoints [] (some vid)).map (fun r => [r])
    else .ok []
  | p0 :: rest => segmentWalk maxT maxD vid mrl rest p0 [toRPt p0]

open Classical in
/-- The per-vessel route phase (`for vessel_id, points in
vessel_routes.items()`, lines 645-692). -/
noncomputable def phaseA (maxT : ℚ) (maxD : ℝ) (mrl : ℕ) :
    List (String × List RoutePoint) → Except PyErr (List (Option Route))
  | [] => .ok []
  | (vid, pts) :: rest =>
    if mrl ≤ pts.length then
      match walkGroup maxT maxD vid mrl pts with
      | .error e => .error e
      | .ok rs => (phaseA maxT maxD mrl rest).map (rs ++ ·)
    else phaseA maxT maxD mrl rest

/-- The candidate time difference of `_connect_sar_points`
(lines 808-822): positive (future-pointing) timestamp difference in
hours, else positive date difference, else `None`. -/
def greedyTimeDiff (cur p2 : RoutePoint) : Option ℚ :=
  match cur.timestamp, p2.timestamp with
  | some a, some b =>
    let d : ℚ := ((tvToSec b - tvToSec a : ℤ) : ℚ) / 3600
    if 0 < d then some d else none
  | _, _ =>
    match cur.date, p2.date with
    | some (.dateOnly d1), some (.dateOnly d2) =>
      let d : ℚ := ((d2 - d1 : ℤ) : ℚ) * 24
      if 0 < d then some d else none
    | some _, some _ => none
    | _, _ => none

open Classical in
/-- One candidate check of the inner `while` loop (lines 795-834):
keep the accumulator, or replace it when candidate `j` is within the
distance bound, has a positive time difference within the time bound,
and strictly beats the best score `1/(1+distance) · 1/(1+time)`. -/
noncomputable def greedyStep (pts : List RoutePoint) (maxT : ℚ) (maxD : ℝ)
    (cur : RoutePoint) (acc : ℝ × Option ℕ) (j : ℕ) : ℝ × Option ℕ :=
  let p2 := pts.getD j default
  let dist := haversineDistance (cur.lat : ℝ) (cur.lon : ℝ) (p2.lat : ℝ) (p2.lon : ℝ)
  if maxD < dist then acc
  else
    match greedyTimeDiff cur p2 with
    | none => acc
    | some td =>
      if maxT < td then acc
      else
        let score := 1 / (1 + dist) * (1 / (1 + (td : ℝ)))
        if acc.1 < score then (score, some j) else acc

/-- The best-next-point search of the inner `while` loop
(lines 789-834), a fold of `greedyStep` over the unprocessed
candidates in index order starting from `best_score = 0`,
`best_idx = None`. -/
noncomputable def greedyBest (pts : List RoutePoint) (maxT : ℚ) (maxD : ℝ)
    (cur : RoutePoint) (remaining : List ℕ) : Option ℕ :=
  (remaining.foldl (greedyStep pts maxT maxD cur) ((0 : ℝ), (none : Option ℕ))).2

lemma greedyStep_snd (pts : List RoutePoint) (maxT : ℚ) (maxD : ℝ)
    (cur : RoutePoint) (acc : ℝ × Option ℕ) (j : ℕ) :
    (greedyStep pts maxT maxD cur acc j).2 = acc.2 ∨
      (greedyStep pts maxT maxD cur acc j).2 = some j := by
  unfold greedyStep
  dsimp only
  split
  · exact Or.inl rfl
  · split
    · exact Or.inl rfl
    · split
      · exact Or.inl rfl
      · split
        · exact Or.inr rfl
        · exact Or.inl rfl

lemma foldl_snd_mem (f : (ℝ × Option ℕ) → ℕ → (ℝ × Option ℕ))
    (hf : ∀ acc j, (f acc j).2 = acc.2 ∨ (f acc j).2 = some j) :
    ∀ (l : List ℕ) (acc : ℝ × Option ℕ) (j : ℕ),
      (l.foldl f acc).2 = some j → acc.2 = some j ∨ j ∈ l := by
  intro l
  induction l with
  | nil => intro acc j h; exact Or.inl h
  | cons x xs ih =>
    intro acc j h
    rcases ih (f acc x) j h with h' | h'
    · rcases hf acc x with h'' | h''
      · exact Or.inl (h'' ▸ h')
      · right
        rw [h'] at h''
        simp only [Option.some.injEq] at h''
        simp [h'']
    · exact Or.inr (List.mem_cons_of_mem _ h')

lemma greedyBest_mem {pts : List RoutePoint} {maxT : ℚ} {maxD : ℝ}
    {cur : RoutePoint} {remaining : List ℕ} {j : ℕ}
    (h : greedyBest pts maxT maxD cur remaining = some j) : j ∈ remaining := by
  unfold greedyBest at h
  rcases foldl_snd_mem _ (greedyStep_snd pts maxT maxD cur) remaining _ j h with h' | h'
  · exact absurd h' (by simp)
  · exact h'

lemma length_filter_ne_lt {l : List ℕ} {j : ℕ} (h : j ∈ l) :
    (l.filter fun x => x != j).length < l.length := by
  induction l with
  | nil => cases h
  | cons x xs ih =>
    by_cases hxj : (x != j) = true
    · have hx : j ∈ xs := by
        rcases List.mem_cons.mp h with h1 | h1
        · rw [h1] at hxj
          simp at hxj
        · exact h1
      simp only [List.filter_cons, hxj, if_true, List.length_cons]
      exact Nat.succ_lt_succ (ih hx)
    · simp only [List.filter_cons, hxj, if_false, List.length_cons]
      exact Nat.lt_succ_of_le (List.length_filter_le _ _)

open Classical in
/-- The chain-growing `while found_next` loop of `_connect_sar_points`
(lines 789-843): repeatedly append the best reachable candidate, mark
it processed, move to it.  Returns the chain (as route triples) and
the list of consumed indices. -/
noncomputable def greedyChain (pts : List RoutePoint) (maxT : ℚ) (maxD : ℝ) :
    (remaining : List ℕ) → (cur : RoutePoint) →
    (acc : List (ℚ × ℚ × Option TimeVal)) → (consumed : List ℕ) →
    List (ℚ × ℚ × Option TimeVal) × List ℕ
  | remaining, cur, acc, consumed =>
    match hbest : greedyBest pts maxT maxD cur remaining with
    | none => (acc, consumed)
    | some j =>
      greedyChain pts maxT maxD (remaining.filter fun x => x != j)
        (pts.getD j default) (acc ++ [toRPt (pts.getD j default)]) (consumed ++ [j])
termination_by remaining _ _ _ => remaining.length
decreasing_by
  exact length_filter_ne_lt (greedyBest_mem hbest)

open Classical in
/-- The outer loop of `_connect_sar_points` (lines 777-851): start a
chain at every unprocessed point, and emit a route when the chain
meets `min_route_length` (`if route:` skips the `None` that
`_create_route_from_points` returns for short chains). -/
noncomputable def connectSarLoop (pts : List RoutePoint) (maxT : ℚ) (maxD : ℝ)
    (mrl : ℕ) : (idxs : List ℕ) → (processedG : List ℕ) → Except PyErr (List Route)
  | [], _ => .ok []
  | i :: is, processedG =>
    if processedG.contains i then connectSarLoop pts maxT maxD mrl is processedG
    else
      let p1 := pts.getD i default
      let remaining := (List.range pts.length).filter fun j =>
        !(processedG.contains j) && j != i
      let res := greedyChain pts maxT maxD remaining p1 [toRPt p1] []
      let processedN := processedG ++ i :: res.2
      if mrl ≤ res.1.length then
        match createRouteFromPoints res.1 none with
        | .error e => .error e
        | .ok (some r) => (connectSarLoop pts maxT maxD mrl is processedN).map (r :: ·)
        | .ok none => connectSarLoop pts maxT maxD mrl is processedN
      else connectSarLoop pts maxT maxD mrl is processedN

open Classical in
/-- Sort key of line 703: `(-confidence, -point count)` ascending. -/
noncomputable def routeLE (a b : Route) : Bool :=
  if a.confidence = b.confidence then decide (b.points.length ≤ a.points.length)
  else decide (b.confidence ≤ a.confidence)

/-- `not point["vessel_id"]` (line 695): no vessel id, or a falsy
(empty) one. -/
def isSarPoint (p : RoutePoint) : Bool :=
  match p.vessel_id with
  | some v => v = ""
  | none => true

open Classical in
/-- `predict_routes(sar_detections, gap_events, max_time_hours,
max_distance_km, min_route_length)` (lines 523-707).  The final sort
maps `r.get("confidence", 0)` over the collected routes; a `None`
entry left by a short segment (possible only when
`min_route_length < 2`) raises `AttributeError` there. -/
noncomputable def predictRoutes (sar gaps : List Item) (maxT : ℚ) (maxD : ℝ)
    (mrl : ℕ) : Except PyErr (List Route) :=
  if sar.isEmpty && gaps.isEmpty then .ok []
  else
    match collectPoints sar with
    | .error e => .error e
    | .ok pts1 =>
      match collectPoints gaps with
      | .error e => .error e
      | .ok pts2 =>
        let all_points := pts1 ++ pts2
        if all_points.length < mrl then .ok []
        else
          let sorted := all_points.mergeSort (fun a b => sortKey a ≤ sortKey b)
          match phaseA maxT maxD mrl (groupByVessel sorted) with
          | .error e => .error e
          | .ok routesA =>
            let sar_points := sorted.filter isSarPoint
            match (if mrl ≤ sar_points.length then
                connectSarLoop sar_points maxT maxD mrl
                  (List.range sar_points.length) []
              else .ok []) with
            | .error e => .error e
            | .ok routesB =>
              let routes := routesA ++ routesB.map some
              if routes.any (·.isNone) then .error .attributeError
              else .ok ((routes.filterMap id).mergeSort routeLE)

/-! ## Risk Scorer (`calculate_risk_score`, lines 186-303) -/

/-- The insights payload as read by `calculate_risk_score`:
`gap = some ev` iff the `"gap"` key is present, with `ev` the value of
`periodSelectedCounters.events` (`none` when those inner keys are
missing, defaulted to 0 by `.get`); `vesselIdentity` likewise holds
`iuuVesselList.totalTimesListedInThePeriod`. -/
structure Insights where
  gap : Option (Option ℤ) := none
  vesselIdentity : Option (Option ℤ) := none
deriving DecidableEq, Repr

inductive RiskLevel where
  | low
  | medium
  | high
  | unknown
deriving DecidableEq, Repr

/-- The `factors` dictionary: `none` = key never written. -/
structure Factors where
  gap_events : Option ℤ := none
  gap_score : Option ℚ := none
  iuu_listed : Option Bool := none
  iuu_count : Option ℤ := none
  iuu_score : Option ℚ := none
  fishing_events : Option ℕ := none
  fishing_score : Option ℚ := none
  encounters : Option ℕ := none
  encounter_score : Option ℚ := none
  port_visits : Option ℕ := none
  port_score : Option ℚ := none
deriving DecidableEq, Repr

/-- The result dictionary of `calculate_risk_score`: on the error path
(lines 301-303) `factors` is absent and `hasError` marks the `"error"`
key. -/
structure RiskResult where
  vessel_id : String
  risk_score : ℚ
  risk_level : RiskLevel
  factors : Option Factors
  hasError : Bool
deriving DecidableEq, Repr

/-- The gap counter that determines the gap contribution: 0 when the
`"gap"` key is absent (no contribution is added then, which is the
same contribution as a 0 counter, though the `factors` keys differ). -/
def gapCount (g? : Option (Option ℤ)) : ℤ :=
  match g? with
  | some ev => ev.getD 0
  | none => 0

/-- `totalTimesListedInThePeriod`, or 0 when `"vesselIdentity"` is
absent. -/
def iuuCount (i? : Option (Option ℤ)) : ℤ :=
  match i? with
  | some il => il.getD 0
  | none => 0

/-- Lines 211-217: the gap-event contribution
(`min(gap_count * 10, 50)` when the `"gap"` key is present). -/
def gapStep (sf : ℚ × Factors) (g? : Option (Option ℤ)) : ℚ × Factors :=
  match g? with
  | some ev =>
    let g := ev.getD 0
    let gs : ℚ := min ((g : ℚ) * 10) 50
    (sf.1 + gs, { sf.2 with gap_events := some g, gap_score := some gs })
  | none => sf

/-- Lines 219-229: the IUU-listing contribution (flat 50 when
`totalTimesListedInThePeriod > 0`). -/
def iuuStep (sf : ℚ × Factors) (i? : Option (Option ℤ)) : ℚ × Factors :=
  match i? with
  | some il =>
    let c := il.getD 0
    if 0 < c then
      let f := { sf.2 with iuu_listed := some true, iuu_count := some c, iuu_score := some (50 : ℚ) }
      (sf.1 + 50, f)
    else (sf.1, { sf.2 with iuu_listed := some false })
  | none => sf

/-- Lines 232-248: fishing intensity, `min(count * 0.5, 15)`; a failed
fetch records 0. -/
def fishingStep (sf : ℚ × Factors) (r : Except Unit ℕ) : ℚ × Factors :=
  match r with
  | .ok n =>
    let fs : ℚ := min ((n : ℚ) * (1 / 2)) 15
    (sf.1 + fs, { sf.2 with fishing_events := some n, fishing_score := some fs })
  | .error _ => (sf.1, { sf.2 with fishing_events := some 0, fishing_score := some 0 })

/-- Lines 250-266: encounter frequency, `min(count * 2, 20)`; a failed
fetch records 0. -/
def encounterStep (sf : ℚ × Factors) (r : Except Unit ℕ) : ℚ × Factors :=
  match r with
  | .ok n =>
    let es : ℚ := min ((n : ℚ) * 2) 20
    (sf.1 + es, { sf.2 with encounters := some n, encounter_score := some es })
  | .error _ => (sf.1, { sf.2 with encounters := some 0, encounter_score := some 0 })

/-- Lines 268-284: port visits, `min(count * 0.3, 15)`; a failed fetch
records 0. -/
def portStep (sf : ℚ × Factors) (r : Except Unit ℕ) : ℚ × Factors :=
  match r with
  | .ok n =>
    let ps : ℚ := min ((n : ℚ) * (3 / 10)) 15
    (sf.1 + ps, { sf.2 with port_visits := some n, port_score := some ps })
  | .error _ => (sf.1, { sf.2 with port_visits := some 0, port_score := some 0 })

/-- `calculate_risk_score(vessel_id, start_date, end_date)`
(lines 186-303), as a pure function of the upstream fetch results it
consumes: the insights fetch (lines 201-206, *not* individually
protected — its failure hits the outer `except` at line 301 and yields
the fallback result), and the three event-count fetches (each wrapped
in its own `try`, a failure recording 0).  The decimal weights `0.5`
and `0.3` are modelled exactly as `1/2` and `3/10`. -/
def calculateRiskScore (vid : String) (insResp : Except Unit Insights)
    (fishingResp encResp portResp : Except Unit ℕ) : RiskResult :=
  match insResp with
  | .error _ =>
    { vessel_id := vid, risk_score := 0, risk_level := .unknown,
      factors := none, hasError := true }
  | .ok ins =>
    let sf := portStep (encounterStep (fishingStep
      (iuuStep (gapStep (0, {}) ins.gap) ins.vesselIdentity)
      fishingResp) encResp) portResp
    let lvl := if 70 ≤ sf.1 then RiskLevel.high
      else if 40 ≤ sf.1 then RiskLevel.medium
      else RiskLevel.low
    { vessel_id := vid, risk_score := min sf.1 100, risk_level := lvl,
      factors := some sf.2, hasError := false }

/-! ## Dark Vessel Aggregator (`_split_date_range`, `get_dark_vessels`,
lines 20-184).  Dates are modelled as integer day numbers (the
`datetime` arithmetic of the source is pure day arithmetic). -/

/-- The `while current_start < end` loop of `_split_date_range`
(lines 29-36).  The fuel argument bounds the iteration count; with
`(e - s).toNat` it is exact whenever `chunk_days ≥ 1` (each iteration
advances `current_start` by at least one day; the source is only ever
called with `chunk_days = 30`). -/
def splitGo (e cd : ℤ) : ℕ → ℤ → List (ℤ × ℤ)
  | 0, _ => []
  | fuel + 1, cs =>
    if cs < e then (cs, min (cs + cd - 1) e) :: splitGo e cd fuel (min (cs + cd - 1) e + 1)
    else []

/-- `_split_date_range(start_date, end_date, chunk_days)`
(lines 20-38). -/
def splitDateRange (s e : ℤ) (cd : ℤ := 30) : List (ℤ × ℤ) :=
  splitGo e cd (e - s).toNat s

/-- The chunking decision of `get_dark_vessels` (lines 62-71):
`days_diff = (end - start).days + 1`; split only when it exceeds
30 days. -/
def dvChunks (s e : ℤ) : List (ℤ × ℤ) :=
  if 30 < e - s + 1 then splitDateRange s e 30 else [(s, e)]

/-- A raw detection inside a SAR report entry (`date`, `detections`,
`lat`, `lon`, line 100). -/
structure SarEntryDet where
  lat : Option ℚ := none
  lon : Option ℚ := none
  date : Option TimeVal := none
  detections : Option ℤ := none
deriving DecidableEq, Repr

/-- The value under a dataset key of a report entry: a list of
detections, or something that is not a list. -/
inductive EntryVal where
  | arr (dets : List SarEntryDet)
  | other
deriving DecidableEq, Repr

/-- A report `entries[]` element: a dict, its keys in insertion
order. -/
def ReportEntry : Type := List (String × EntryVal)

/-- A SAR report response (`entries` present or absent). -/
structure Report where
  entries : Option (List ReportEntry) := none

/-- `"sar-presence" in key.lower()` (line 107). -/
def keyHasSarPresence (k : String) : Bool :=
  ((k.toLower).splitOn "sar-presence").length > 1

/-- The normalised detection dict built at lines 118-124. -/
def convertDet (d : SarEntryDet) : Item :=
  { latitude := d.lat, longitude := d.lon, date := d.date,
    detections := some (d.detections.getD 1), matched := some false }

/-- Parse one report entry (lines 103-125): find the first key
containing `"sar-presence"`, and if its value is a list convert every
member that has both `"lat"` and `"lon"` keys. -/
def parseEntry (en : ReportEntry) : List Item :=
  match en.find? (fun kv => keyHasSarPresence kv.1) with
  | some (_, .arr dets) =>
    (dets.filter fun d => d.lat.isSome && d.lon.isSome).map convertDet
  | _ => []

/-- Parse a SAR report response (lines 101-128): requires a nonempty
`entries` list. -/
def parseSarReport (r : Report) : List Item :=
  match r.entries with
  | some entries => if 0 < entries.length then entries.flatMap parseEntry else []
  | none => []

/-- A member of a gap-events list: a dict, or a non-dict value. -/
inductive GItem where
  | dict
  | nonDict
deriving DecidableEq, Repr

/-- The value under the `"data"` key: a list, or a bare value that
line 156 wraps as `[gaps["data"]]`. -/
inductive GData where
  | lst (l : List GItem)
  | single (g : GItem)
deriving DecidableEq, Repr

/-- A dict-shaped gap response (`entries` / `data` / `results` keys,
restricted to list-or-absent shapes for `entries` and `results`;
degenerate non-list values there are outside the model). -/
structure GapsDict where
  entries : Option (List GItem) := none
  data : Option GData := none
  results : Option (List GItem) := none
deriving DecidableEq, Repr

/-- A gap-events response: a dict or a bare list. -/
inductive GapsResp where
  | dict (d : GapsDict)
  | list (l : List GItem)
deriving DecidableEq, Repr

/-- What actually lands in `results["gap_events"]`: plain items, or —
when the first element is not a dict — the whole list wrapped as a
single element (line 159-160). -/
inductive GapAcc where
  | item (g : GItem)
  | wrapped (l : List GItem)
deriving DecidableEq, Repr

/-- The falsy-`or` chain of line 156 selecting `gap_list`. -/
def gapListOf (resp : GapsResp) : List GItem :=
  match resp with
  | .dict d =>
    let t1 := d.entries.getD []
    if t1 ≠ [] then t1
    else
      let t2 := match d.data with
        | some (.lst l) => l
        | some (.single g) => [g]
        | none => []
      if t2 ≠ [] then t2
      else d.results.getD []
  | .list l => l

/-- Lines 159-163: wrap a list whose head is not a dict, then extend
the accumulator when nonempty. -/
def parseGaps (resp : GapsResp) : List GapAcc :=
  match gapListOf resp with
  | [] => []
  | g0 :: rest =>
    if g0 = .nonDict then [.wrapped (g0 :: rest)] else (g0 :: rest).map .item

/-- The SAR accumulation loops of lines 75-134: one
`create_report` call per (EEZ, chunk) pair, failures caught and
skipped. -/
def accumulatedSar (cr : String → ℤ × ℤ → Except Unit Report)
    (eezIds : List String) (chunks : List (ℤ × ℤ)) : List Item :=
  eezIds.flatMap fun z => chunks.flatMap fun ch =>
    match cr z ch with
    | .ok r => parseSarReport r
    | .error _ => []

/-- The gap-event accumulation loops of lines 137-168. -/
def accumulatedGaps (gg : String → ℤ × ℤ → Except Unit GapsResp)
    (eezIds : List String) (chunks : List (ℤ × ℤ)) : List GapAcc :=
  eezIds.flatMap fun z => chunks.flatMap fun ch =>
    match gg z ch with
    | .ok resp => parseGaps resp
    | .error _ => []

/-- Evaluating `self._extract_vessel_id(item)`: no method of that name
is defined anywhere in `DarkVesselService`, so the attribute lookup
raises `AttributeError` for every item. -/
def extractVesselIdCall {α : Type} (_item : α) : Except PyErr String :=
  .error .attributeError

/-- The set comprehension of lines 171-172
(`{vid for item in sar + gaps if (vid := self._extract_vessel_id(item))}`):
walk the items, keep truthy ids.  (Set deduplication and ordering are
not modelled; the comprehension raises on its first item anyway.) -/
def collectVesselIds {α : Type} : List α → Except PyErr (List String)
  | [] => .ok []
  | x :: xs =>
    match extractVesselIdCall x with
    | .error e => .error e
    | .ok v =>
      match collectVesselIds xs with
      | .error e => .error e
      | .ok rest => .ok (if v = "" then rest else v :: rest)

/-- The summary dict of lines 175-182 (the constant `note` string is
omitted). -/
structure DVSummary where
  total_sar_detections : ℕ
  total_gap_events : ℕ
  unique_vessels : ℕ
  unique_detection_points : ℕ
  eez_count : ℕ
deriving DecidableEq, Repr

/-- The `results` dict of `get_dark_vessels`. -/
structure DVResults where
  sar_detections : List Item
  gap_events : List GapAcc
  combined : List String
  summary : DVSummary

/-- `get_dark_vessels(eez_ids, start_date, end_date, include_sar,
include_gaps, intentional_gaps_only)` (lines 40-184), as a function of
the upstream client's responses (`cr` = `create_report`,
`gg` = `get_gap_events`). -/
def getDarkVessels (cr : String → ℤ × ℤ → Except Unit Report)
    (gg : String → ℤ × ℤ → Bool → Except Unit GapsResp)
    (eezIds : List String) (s e : ℤ)
    (includeSar includeGaps intentionalOnly : Bool) : Except PyErr DVResults :=
  let chunks := dvChunks s e
  let sar := if includeSar then accumulatedSar cr eezIds chunks else []
  let gaps := if includeGaps then
    accumulatedGaps (fun z ch => gg z ch intentionalOnly) eezIds chunks else []
  match collectVesselIds (sar.map Sum.inl ++ gaps.map (Sum.inr : GapAcc → Item ⊕ GapAcc)) with
  | .error err => .error err
  | .ok vids =>
    .ok { sar_detections := sar, gap_events := gaps, combined := vids,
          summary := { total_sar_detections := sar.length,
                       total_gap_events := gaps.length,
                       unique_vessels := vids.length,
                       unique_detection_points := sar.length,
                       eez_count := eezIds.length } }

/-! ## Claims -/

/-- **C10**: for all points (any real latitudes and longitudes),
`distance_km(a, a) = 0`, `distance_km(a, b) = distance_km(b, a)`, and
`distance_km(a, b) ≥ 0`. -/
theorem spec_C10 (lat1 lon1 lat2 lon2 : ℝ) :
    haversineDistance lat1 lon1 lat1 lon1 = 0 ∧
    haversineDistance lat1 lon1 lat2 lon2 = haversineDistance lat2 lon2 lat1 lon1 ∧
    0 ≤ haversineDistance lat1 lon1 lat2 lon2 :=
  ⟨haversineDistance_self lat1 lon1, haversineDistance_comm lat1 lon1 lat2 lon2,
    haversineDistance_nonneg lat1 lon1 lat2 lon2⟩

/-- **C4** (code bug): `_split_date_range`, as called by
`get_dark_vessels`, does split a 90-day range (day numbers 0..89) into
exactly 3 chunks of at most 30 days each; but chunks do *not* always
cover the requested range: for a 31-day span (day numbers 0..30, e.g.
2025-01-01 to 2025-01-31) it produces the single chunk (0, 29) and the
final requested day 30 lies in no chunk — the loop guard
`while current_start < end` exits one day early whenever the span is
one more than a multiple of 30. -/
theorem spec_C4 :
    dvChunks 0 89 = [(0, 29), (30, 59), (60, 89)] ∧
    ((dvChunks 0 89).all fun c => c.2 - c.1 + 1 ≤ 30) = true ∧
    dvChunks 0 30 = [(0, 29)] ∧
    ((dvChunks 0 30).all fun c => !(decide (c.1 ≤ 30) && decide (30 ≤ c.2))) = true := by
  decide

/-- The capped gap contribution (`min(gap_count * 10, 50)`), 0 when
the `"gap"` key is absent. -/
def gapPart (g? : Option (Option ℤ)) : ℚ := min ((gapCount g? : ℚ) * 10) 50

/-- The watchlist contribution: flat 50 when listed at all. -/
def iuuPart (i? : Option (Option ℤ)) : ℚ := if 0 < iuuCount i? then 50 else 0

/-- A capped event-count contribution, 0 when the fetch failed. -/
def cntPart (w cap : ℚ) (r : Except Unit ℕ) : ℚ :=
  match r with
  | .ok n => min ((n : ℚ) * w) cap
  | .error _ => 0

lemma gapStep_fst (sf : ℚ × Factors) (g? : Option (Option ℤ)) :
    (gapStep sf g?).1 = sf.1 + gapPart g? := by
  cases g? <;> simp [gapStep, gapPart, gapCount]

lemma iuuStep_fst (sf : ℚ × Factors) (i? : Option (Option ℤ)) :
    (iuuStep sf i?).1 = sf.1 + iuuPart i? := by
  cases i? with
  | none => simp [iuuStep, iuuPart, iuuCount]
  | some il =>
    simp only [iuuStep, iuuPart, iuuCount]
    split_ifs <;> simp

lemma fishingStep_fst (sf : ℚ × Factors) (r : Except Unit ℕ) :
    (fishingStep sf r).1 = sf.1 + cntPart (1/2) 15 r := by
  cases r <;> simp [fishingStep, cntPart]

lemma encounterStep_fst (sf : ℚ × Factors) (r : Except Unit ℕ) :
    (encounterStep sf r).1 = sf.1 + cntPart 2 20 r := by
  cases r <;> simp [encounterStep, cntPart]

lemma portStep_fst (sf : ℚ × Factors) (r : Except Unit ℕ) :
    (portStep sf r).1 = sf.1 + cntPart (3/10) 15 r := by
  cases r <;> simp [portStep, cntPart]

lemma calculateRiskScore_ok_score (vid : String) (ins : Insights)
    (f e p : Except Unit ℕ) :
    (calculateRiskScore vid (.ok ins) f e p).risk_score =
      min (gapPart ins.gap + iuuPart ins.vesselIdentity + cntPart (1/2) 15 f +
        cntPart 2 20 e + cntPart (3/10) 15 p) 100 := by
  simp only [calculateRiskScore]
  rw [portStep_fst, encounterStep_fst, fishingStep_fst, iuuStep_fst, gapStep_fst]
  ring_nf

lemma cntPart_nonneg {w cap : ℚ} (hw : 0 ≤ w) (hcap : 0 ≤ cap)
    (r : Except Unit ℕ) : 0 ≤ cntPart w cap r := by
  cases r with
  | error u => exact le_refl 0
  | ok n => exact le_min (by positivity) hcap

lemma iuuPart_nonneg (i? : Option (Option ℤ)) : 0 ≤ iuuPart i? := by
  unfold iuuPart
  split_ifs <;> norm_num

/-- **C7**: under the precondition that the fetched counters are
non-negative, `score_vessel`'s `risk_score` lies in [0, 100] however
extreme the counters are; on a successful insights fetch it equals the
sum of the per-factor capped contributions, clamped to 100; and the
scenario `gap_count = 3`, IUU-listed, all other counters 0 yields
exactly 80 with risk tier `"high"`. -/
theorem spec_C7 (vid : String) (insResp : Except Unit Insights)
    (f e p : Except Unit ℕ)
    (hg : ∀ ins, insResp = Except.ok ins → 0 ≤ gapCount ins.gap) :
    (0 ≤ (calculateRiskScore vid insResp f e p).risk_score ∧
      (calculateRiskScore vid insResp f e p).risk_score ≤ 100) ∧
    (∀ ins, insResp = Except.ok ins →
      (calculateRiskScore vid insResp f e p).risk_score =
        min (min ((gapCount ins.gap : ℚ) * 10) 50 +
          (if 0 < iuuCount ins.vesselIdentity then (50 : ℚ) else 0) +
          cntPart (1/2) 15 f + cntPart 2 20 e + cntPart (3/10) 15 p) 100) ∧
    ((calculateRiskScore "v" (Except.ok ⟨some (some 3), some (some 1)⟩)
        (Except.ok 0) (Except.ok 0) (Except.ok 0)).risk_score = 80 ∧
      (calculateRiskScore "v" (Except.ok ⟨some (some 3), some (some 1)⟩)
        (Except.ok 0) (Except.ok 0) (Except.ok 0)).risk_level = RiskLevel.high) := by
  refine ⟨?_, ?_, ?_⟩
  · cases hi : insResp with
    | error u =>
      constructor <;> simp [calculateRiskScore]
    | ok ins =>
      rw [calculateRiskScore_ok_score]
      have h0 : (0 : ℚ) ≤ (gapCount ins.gap : ℚ) := by
        exact_mod_cast hg ins hi
      have hgap : 0 ≤ gapPart ins.gap := le_min (by positivity) (by norm_num)
      have hsum : 0 ≤ gapPart ins.gap + iuuPart ins.vesselIdentity +
          cntPart (1/2) 15 f + cntPart 2 20 e + cntPart (3/10) 15 p := by
        have h1 := iuuPart_nonneg ins.vesselIdentity
        have h2 := cntPart_nonneg (by norm_num : (0:ℚ) ≤ 1/2) (by norm_num : (0:ℚ) ≤ 15) f
        have h3 := cntPart_nonneg (by norm_num : (0:ℚ) ≤ 2) (by norm_num : (0:ℚ) ≤ 20) e
        have h4 := cntPart_nonneg (by norm_num : (0:ℚ) ≤ 3/10) (by norm_num : (0:ℚ) ≤ 15) p
        linarith
      exact ⟨le_min hsum (by norm_num), min_le_right _ _⟩
  · intro ins hi
    rw [hi, calculateRiskScore_ok_score]
    simp [gapPart, iuuPart]
  · constructor <;>
      norm_num [calculateRiskScore, gapStep, iuuStep, fishingStep,
        encounterStep, portStep]

/-- Witness for `spec_C7` at the scenario input. -/
theorem spec_C7_witness :
    0 ≤ (calculateRiskScore "v" (Except.ok ⟨some (some 3), some (some 1)⟩)
      (Except.ok 0) (Except.ok 0) (Except.ok 0)).risk_score ∧
    (calculateRiskScore "v" (Except.ok ⟨some (some 3), some (some 1)⟩)
      (Except.ok 0) (Except.ok 0) (Except.ok 0)).risk_score ≤ 100 :=
  (spec_C7 "v" (Except.ok ⟨some (some 3), some (some 1)⟩)
    (Except.ok 0) (Except.ok 0) (Except.ok 0)
    (fun ins hi => by cases hi; decide)).1

/-- **C8** (counterexample): the claim says a failing fetch for *any*
single factor — including the gaps/watchlist factors — leaves the other
factors contributing normally.  But gaps and watchlist come from the
one unprotected `get_vessel_insights` fetch: when it fails while the
fishing fetch succeeds with 10 events, the whole assessment collapses
to the fallback (`risk_score = 0`, level `"unknown"`, no `factors`
dict), instead of recording fishing = 10 with contribution 5. -/
theorem counterexample_C8 :
    (calculateRiskScore "v" (Except.error ()) (Except.ok 10) (Except.ok 0)
      (Except.ok 0)).factors.isNone = true ∧
    (calculateRiskScore "v" (Except.error ()) (Except.ok 10) (Except.ok 0)
      (Except.ok 0)).risk_score = 0 ∧
    (calculateRiskScore "v" (Except.error ()) (Except.ok 10) (Except.ok 0)
      (Except.ok 0)).risk_level = RiskLevel.unknown := by
  refine ⟨rfl, rfl, rfl⟩

lemma encounterStep_keeps_fishing (sf : ℚ × Factors) (r : Except Unit ℕ) :
    (encounterStep sf r).2.fishing_events = sf.2.fishing_events ∧
    (encounterStep sf r).2.fishing_score = sf.2.fishing_score := by
  cases r <;> exact ⟨rfl, rfl⟩

lemma portStep_keeps_fishing (sf : ℚ × Factors) (r : Except Unit ℕ) :
    (portStep sf r).2.fishing_events = sf.2.fishing_events ∧
    (portStep sf r).2.fishing_score = sf.2.fishing_score := by
  cases r <;> exact ⟨rfl, rfl⟩

lemma portStep_keeps_encounters (sf : ℚ × Factors) (r : Except Unit ℕ) :
    (portStep sf r).2.encounters = sf.2.encounters ∧
    (portStep sf r).2.encounter_score = sf.2.encounter_score := by
  cases r <;> exact ⟨rfl, rfl⟩

/-- **C8** (amended): a failing fetch of any of the three *individually
protected* factors (fishing, encounters, port visits) contributes 0,
is recorded as 0 in `factors`, and leaves the remaining factors
contributing normally; but a failure of the single insights fetch
(which supplies both the AIS-gap and the watchlist factors) aborts to
the fallback assessment — `risk_score 0`, level `"unknown"`, no
`factors` — instead of degrading per-factor. -/
theorem spec_C8 :
    (∀ (vid : String) (f e p : Except Unit ℕ),
      calculateRiskScore vid (Except.error ()) f e p =
        { vessel_id := vid, risk_score := 0, risk_level := RiskLevel.unknown,
          factors := none, hasError := true }) ∧
    (∀ (vid : String) (ins : Insights) (ec pc : ℕ), ∃ fac,
      (calculateRiskScore vid (Except.ok ins) (Except.error ()) (Except.ok ec)
        (Except.ok pc)).factors = some fac ∧
      fac.fishing_events = some 0 ∧ fac.fishing_score = some 0 ∧
      (calculateRiskScore vid (Except.ok ins) (Except.error ()) (Except.ok ec)
        (Except.ok pc)).risk_score =
        min (gapPart ins.gap + iuuPart ins.vesselIdentity +
          min ((ec : ℚ) * 2) 20 + min ((pc : ℚ) * (3/10)) 15) 100) ∧
    (∀ (vid : String) (ins : Insights) (fc pc : ℕ), ∃ fac,
      (calculateRiskScore vid (Except.ok ins) (Except.ok fc) (Except.error ())
        (Except.ok pc)).factors = some fac ∧
      fac.encounters = some 0 ∧ fac.encounter_score = some 0 ∧
      (calculateRiskScore vid (Except.ok ins) (Except.ok fc) (Except.error ())
        (Except.ok pc)).risk_score =
        min (gapPart ins.gap + iuuPart ins.vesselIdentity +
          min ((fc : ℚ) * (1/2)) 15 + min ((pc : ℚ) * (3/10)) 15) 100) ∧
    (∀ (vid : String) (ins : Insights) (fc ec : ℕ), ∃ fac,
      (calculateRiskScore vid (Except.ok ins) (Except.ok fc) (Except.ok ec)
        (Except.error ())).factors = some fac ∧
      fac.port_visits = some 0 ∧ fac.port_score = some 0 ∧
      (calculateRiskScore vid (Except.ok ins) (Except.ok fc) (Except.ok ec)
        (Except.error ())).risk_score =
        min (gapPart ins.gap + iuuPart ins.vesselIdentity +
          min ((fc : ℚ) * (1/2)) 15 + min ((ec : ℚ) * 2) 20) 100) := by
  refine ⟨fun vid f e p => rfl, ?_, ?_, ?_⟩
  · intro vid ins ec pc
    refine ⟨_, rfl, ?_, ?_, ?_⟩
    · rw [(portStep_keeps_fishing _ _).1, (encounterStep_keeps_fishing _ _).1]
      rfl
    · rw [(portStep_keeps_fishing _ _).2, (encounterStep_keeps_fishing _ _).2]
      rfl
    · rw [calculateRiskScore_ok_score]
      simp only [cntPart]
      ring_nf
  · intro vid ins fc pc
    refine ⟨_, rfl, ?_, ?_, ?_⟩
    · rw [(portStep_keeps_encounters _ _).1]
      rfl
    · rw [(portStep_keeps_encounters _ _).2]
      rfl
    · rw [calculateRiskScore_ok_score]
      simp only [cntPart]
      ring_nf
  · intro vid ins fc ec
    refine ⟨_, rfl, ?_, ?_, ?_⟩
    · rfl
    · rfl
    · rw [calculateRiskScore_ok_score]
      simp only [cntPart]
      ring_nf

lemma getDarkVessels_ok_case (cr : String → ℤ × ℤ → Except Unit Report)
    (gg : String → ℤ × ℤ → Bool → Except Unit GapsResp)
    (eezIds : List String) (s e : ℤ) (iS iG io : Bool)
    (hS : (if iS then accumulatedSar cr eezIds (dvChunks s e) else []) = [])
    (hG : (if iG then accumulatedGaps (fun z ch => gg z ch io) eezIds (dvChunks s e)
      else []) = []) :
    getDarkVessels cr gg eezIds s e iS iG io =
      Except.ok ⟨[], [], [], ⟨0, 0, 0, 0, eezIds.length⟩⟩ := by
  simp only [getDarkVessels]
  rw [hS, hG]
  rfl

lemma getDarkVessels_error_case (cr : String → ℤ × ℤ → Except Unit Report)
    (gg : String → ℤ × ℤ → Bool → Except Unit GapsResp)
    (eezIds : List String) (s e : ℤ) (iS iG io : Bool)
    (h : ¬((if iS then accumulatedSar cr eezIds (dvChunks s e) else []) = [] ∧
      (if iG then accumulatedGaps (fun z ch => gg z ch io) eezIds (dvChunks s e)
        else []) = [])) :
    getDarkVessels cr gg eezIds s e iS iG io = Except.error PyErr.attributeError := by
  simp only [getDarkVessels]
  cases hL : ((if iS then accumulatedSar cr eezIds (dvChunks s e) else []).map Sum.inl ++
      ((if iG then accumulatedGaps (fun z ch => gg z ch io) eezIds (dvChunks s e)
        else []).map (Sum.inr : GapAcc → Item ⊕ GapAcc))) with
  | nil =>
    exfalso
    rw [List.append_eq_nil, List.map_eq_nil_iff, List.map_eq_nil_iff] at hL
    exact h ⟨hL.1, hL.2⟩
  | cons y ys =>
    rfl

/-- **C2**: `get_dark_vessels` returns normally iff zero SAR detections
and zero gap events were accumulated from the upstream client; as soon
as at least one detection or gap event is accumulated, the vessel-id
cross-reference step raises `AttributeError` (the `_extract_vessel_id`
method it invokes is defined nowhere in the class). -/
theorem spec_C2 (cr : String → ℤ × ℤ → Except Unit Report)
    (gg : String → ℤ × ℤ → Bool → Except Unit GapsResp)
    (eezIds : List String) (s e : ℤ) (iS iG io : Bool) :
    ((∃ res, getDarkVessels cr gg eezIds s e iS iG io = Except.ok res) ↔
      ((if iS then accumulatedSar cr eezIds (dvChunks s e) else []) = [] ∧
       (if iG then accumulatedGaps (fun z ch => gg z ch io) eezIds (dvChunks s e)
         else []) = [])) ∧
    (¬((if iS then accumulatedSar cr eezIds (dvChunks s e) else []) = [] ∧
       (if iG then accumulatedGaps (fun z ch => gg z ch io) eezIds (dvChunks s e)
         else []) = []) →
      getDarkVessels cr gg eezIds s e iS iG io = Except.error PyErr.attributeError) := by
  constructor
  · constructor
    · rintro ⟨res, hres⟩
      by_contra hne
      rw [getDarkVessels_error_case cr gg eezIds s e iS iG io hne] at hres
      cases hres
    · rintro ⟨hS, hG⟩
      exact ⟨_, getDarkVessels_ok_case cr gg eezIds s e iS iG io hS hG⟩
  · exact getDarkVessels_error_case cr gg eezIds s e iS iG io

/-- A gap-events client returning a bare list with one dict entry. -/
def sampleGapClient : String → ℤ × ℤ → Bool → Except Unit GapsResp :=
  fun _ _ _ => Except.ok (GapsResp.list [GItem.dict])

/-- A failing gap-events client. -/
def failingGapClient : String → ℤ × ℤ → Bool → Except Unit GapsResp :=
  fun _ _ _ => Except.error ()

/-- Witness for `spec_C2`: with a client returning one gap event for
the single region and chunk, `get_dark_vessels` raises
`AttributeError`; with every fetch failing, it returns normally. -/
theorem spec_C2_witness :
    getDarkVessels (fun _ _ => Except.error ()) sampleGapClient
      ["France"] 0 5 true true true = Except.error PyErr.attributeError ∧
    (∃ res, getDarkVessels (fun _ _ => Except.error ()) failingGapClient
      ["France"] 0 5 true true true = Except.ok res) := by
  constructor
  · apply (spec_C2 (fun _ _ => Except.error ()) sampleGapClient
      ["France"] 0 5 true true true).2
    intro hcontra
    exact absurd hcontra.2 (by decide)
  · exact (spec_C2 (fun _ _ => Except.error ()) failingGapClient
      ["France"] 0 5 true true true).1.mpr ⟨rfl, rfl⟩

lemma extractPointData_ne_some (it : Item) (p : RoutePoint) :
    extractPointData it ≠ Except.ok (some p) := by
  intro h
  unfold extractPointData at h
  rcases hcp : extractCoordsPhase it with er | o
  · rw [hcp] at h
    cases h
  · cases o with
    | none => rw [hcp] at h; cases h
    | some c => rw [hcp] at h; cases h

lemma collectPoints_ok_nil (l : List Item) (pts : List RoutePoint)
    (h : collectPoints l = Except.ok pts) : pts = [] := by
  induction l generalizing pts with
  | nil =>
    cases h
    rfl
  | cons x xs ih =>
    rcases hx : extractPointData x with er | o
    · rw [collectPoints, hx] at h
      cases h
    · cases o with
      | none =>
        rw [collectPoints, hx] at h
        exact ih pts h
      | some p => exact absurd hx (extractPointData_ne_some x p)

lemma collectPoints_error_of_mem (l : List Item)
    (h : ∃ it ∈ l, ∃ la lo : ℚ, extractCoordsPhase it = Except.ok (some (la, lo))) :
    ∃ er, collectPoints l = Except.error er := by
  induction l with
  | nil =>
    obtain ⟨it, hit, _⟩ := h
    cases hit
  | cons x xs ih =>
    rcases hx : extractPointData x with er | o
    · exact ⟨er, by rw [collectPoints, hx]⟩
    · cases o with
      | some p => exact absurd hx (extractPointData_ne_some x p)
      | none =>
        obtain ⟨it, hit, la, lo, hcp⟩ := h
        rcases List.mem_cons.mp hit with heq | hmem
        · exfalso
          rw [heq] at hcp
          unfold extractPointData at hx
          rw [hcp] at hx
          cases hx
        · obtain ⟨er, her⟩ := ih ⟨it, hmem, la, lo, hcp⟩
          exact ⟨er, by rw [collectPoints, hx]; exact her⟩

/-- **C1**: `predict_routes` can only raise or return the empty list —
it never returns a non-empty list of routes.  Any input containing an
item whose coordinate extraction succeeds raises (its
`self._extract_vessel_id` call hits a method that is defined nowhere in
the class); and, independently, `_create_route_from_points` raises
`TypeError` for every list of ≥ 2 points (its `route_id` hashes a tuple
of unhashable list slices). -/
theorem spec_C1 :
    (∀ (sar gaps : List Item) (maxT : ℚ) (maxD : ℝ) (mrl : ℕ)
      (routes : List Route),
      predictRoutes sar gaps maxT maxD mrl = Except.ok routes → routes = []) ∧
    (∀ (sar gaps : List Item) (maxT : ℚ) (maxD : ℝ) (mrl : ℕ),
      (∃ it ∈ sar ++ gaps, ∃ la lo : ℚ,
        extractCoordsPhase it = Except.ok (some (la, lo))) →
      ∃ er, predictRoutes sar gaps maxT maxD mrl = Except.error er) ∧
    (∀ (pts : List (ℚ × ℚ × Option TimeVal)) (vid : Option String),
      2 ≤ pts.length → createRouteFromPoints pts vid = Except.error PyErr.typeError) := by
  refine ⟨?_, ?_, ?_⟩
  · intro sar gaps maxT maxD mrl routes h
    by_cases hemp : (sar.isEmpty && gaps.isEmpty) = true
    · rw [predictRoutes, if_pos hemp] at h
      cases h
      rfl
    · rw [predictRoutes, if_neg hemp] at h
      rcases h1 : collectPoints sar with er | pts1
      · rw [h1] at h
        cases h
      · rcases h2 : collectPoints gaps with er | pts2
        · rw [h1, h2] at h
          cases h
        · rw [h1, h2] at h
          have e1 := collectPoints_ok_nil sar pts1 h1
          have e2 := collectPoints_ok_nil gaps pts2 h2
          subst e1
          subst e2
          simp only [List.nil_append, List.length_nil] at h
          by_cases hm : 0 < mrl
          · rw [if_pos hm] at h
            cases h
            rfl
          · rw [if_neg hm] at h
            simp only [Nat.not_lt, Nat.le_zero] at hm
            subst hm
            simp only [List.mergeSort_nil, groupByVessel, List.foldl_nil, phaseA,
              List.filter_nil, List.length_nil, le_refl, if_pos, List.range_zero,
              connectSarLoop, List.nil_append, List.map_nil, List.any_nil,
              Bool.false_eq_true, if_false, List.filterMap_nil] at h
            cases h
            rfl
  · intro sar gaps maxT maxD mrl hex
    obtain ⟨it, hit, la, lo, hcp⟩ := hex
    have hemp : ¬(sar.isEmpty && gaps.isEmpty) = true := by
      rcases List.mem_append.mp hit with hs | hg
      · have : sar ≠ [] := List.ne_nil_of_mem hs
        simp [List.isEmpty_iff, this]
      · have : gaps ≠ [] := List.ne_nil_of_mem hg
        simp [List.isEmpty_iff, this]
    rcases List.mem_append.mp hit with hs | hg
    · obtain ⟨er, her⟩ := collectPoints_error_of_mem sar ⟨it, hs, la, lo, hcp⟩
      refine ⟨er, ?_⟩
      rw [predictRoutes, if_neg hemp, her]
    · rcases h1 : collectPoints sar with er | pts1
      · refine ⟨er, ?_⟩
        rw [predictRoutes, if_neg hemp, h1]
      · obtain ⟨er, her⟩ := collectPoints_error_of_mem gaps ⟨it, hg, la, lo, hcp⟩
        refine ⟨er, ?_⟩
        rw [predictRoutes, if_neg hemp, h1, her]
  · intro pts vid h
    rw [createRouteFromPoints, if_neg (Nat.not_lt.mpr h)]

/-- Witness for `spec_C1`: empty input yields `ok []`; a single
detection at (10, 20) raises; two points raise `TypeError` in
`_create_route_from_points`. -/
theorem spec_C1_witness :
    (predictRoutes [] [] 48 100 2 = Except.ok [] → True) ∧
    (∃ er, predictRoutes [{ latitude := some 10, longitude := some 20 }] []
      48 100 2 = Except.error er) ∧
    createRouteFromPoints [(0, 0, none), (1, 1, none)] none =
      Except.error PyErr.typeError := by
  refine ⟨fun _ => trivial, ?_, ?_⟩
  · exact spec_C1.2.1 [{ latitude := some 10, longitude := some 20 }] [] 48 100 2
      ⟨{ latitude := some 10, longitude := some 20 }, by simp, 10, 20, rfl⟩
  · exact spec_C1.2.2 [(0, 0, none), (1, 1, none)] none (by norm_num)

/-- The scenario detection (10.0, 20.0, "2025-04-01", 1) — day 20179 is
2025-04-01. -/
def routeDet1 : Item :=
  { latitude := some 10, longitude := some 20, date := some (.dateOnly 20179),
    detections := some 1, matched := some false }

/-- The scenario detection (10.1, 20.1, "2025-04-02", 1). -/
def routeDet2 : Item :=
  { latitude := some (101/10), longitude := some (201/10),
    date := some (.dateOnly 20180), detections := some 1, matched := some false }

/-- **C3** (code bug): for the spec scenario — two detections ~15 km
and 24 h apart, `max_time_hours = 48`, `max_distance_km = 100`,
`min_route_length = 2` — the spec and the repository's own test
(`test_routes_happy_path_builds_one_route`) expect exactly one route
with `point_count = 2`; instead `predict_routes` raises
`AttributeError` as soon as `extract_point_data` reaches its
`self._extract_vessel_id` call on the first detection, because no such
method exists in the class. -/
theorem spec_C3 :
    predictRoutes [routeDet1, routeDet2] [] 48 100 2 =
      Except.error PyErr.attributeError := by
  rw [predictRoutes]
  rfl

lemma gdMem {α : Type} (l : List α) (j : ℕ) (d : α) (h : j < l.length) :
    l.getD j d ∈ l := by
  induction l generalizing j with
  | nil => simp at h
  | cons x xs ih =>
    cases j with
    | zero => simp [List.getD_cons_zero]
    | succ j' =>
      rw [List.getD_cons_succ]
      exact List.mem_cons_of_mem x (ih j' (by simpa using h))

lemma detLat_default : detLat (default : Item) = none := rfl

lemma detLon_default : detLon (default : Item) = none := rfl

lemma validEntry_facts {dets : List Item} {j : ℕ} {v : ℚ × ℚ × Item}
    (h : validEntry dets j = some v) :
    v.2.2 ∈ dets ∧ detLat v.2.2 = some v.1 ∧ detLon v.2.2 = some v.2.1 := by
  unfold validEntry at h
  rcases hla : detLat (dets.getD j default) with _ | la <;> rw [hla] at h
  · cases h
  · rcases hlo : detLon (dets.getD j default) with _ | lo <;> rw [hlo] at h
    · cases h
    · cases h
      refine ⟨?_, hla, hlo⟩
      by_cases hj : j < dets.length
      · exact gdMem dets j default hj
      · exfalso
        rw [List.getD_eq_default dets default (Nat.le_of_not_lt hj)] at hla
        rw [detLat_default] at hla
        cases hla

lemma mkCluster_detection_count (date? : Option TimeVal)
    (valid : List (ℚ × ℚ × Item)) :
    (mkCluster date? valid).detection_count = valid.length := rfl

lemma mkCluster_vessel_count (date? : Option TimeVal)
    (valid : List (ℚ × ℚ × Item)) :
    (mkCluster date? valid).vessel_count =
      (valid.map (fun v => v.2.2.detections.getD 1)).sum := rfl

lemma mkCluster_detections (date? : Option TimeVal)
    (valid : List (ℚ × ℚ × Item)) :
    (mkCluster date? valid).detections = valid.map (fun v => v.2.2) := rfl

lemma mkCluster_risk (date? : Option TimeVal) (valid : List (ℚ × ℚ × Item)) :
    (mkCluster date? valid).risk_indicator =
      (if 3 ≤ (valid.map (fun v => v.2.2.detections.getD 1)).sum then RiskTier.high
       else if 2 ≤ (valid.map (fun v => v.2.2.detections.getD 1)).sum then RiskTier.medium
       else RiskTier.low) := rfl

/-- Every cluster emitted by the outer loop is the `mkCluster` of a
valid-coordinate member list of length ≥ 2, all of whose items come
from the detection list with their extracted coordinates. -/
lemma findClustersLoop_mem {dets : List Item} {maxD : ℝ} {date? : Option TimeVal} :
    ∀ {idxs processed : List ℕ} {c : Cluster},
      c ∈ findClustersLoop dets maxD date? idxs processed →
      ∃ valid : List (ℚ × ℚ × Item), c = mkCluster date? valid ∧
        2 ≤ valid.length ∧
        ∀ v ∈ valid, v.2.2 ∈ dets ∧ detLat v.2.2 = some v.1 ∧
          detLon v.2.2 = some v.2.1 := by
  intro idxs
  induction idxs with
  | nil =>
    intro processed c h
    rw [findClustersLoop] at h
    cases h
  | cons i is ih =>
    intro processed c h
    rw [findClustersLoop] at h
    by_cases hp : processed.contains i
    · rw [if_pos hp] at h
      exact ih h
    · rw [if_neg hp] at h
      rcases hla : detLat (dets.getD i default) with _ | la <;> rw [hla] at h
      · exact ih h
      · rcases hlo : detLon (dets.getD i default) with _ | lo <;> rw [hlo] at h
        · exact ih h
        · by_cases h2 : 2 ≤ (clusterBFS dets maxD [i]
              ((List.range dets.length).filter fun j =>
                !(processed.contains j) && j != i) [i]).length
          · rw [if_pos h2] at h
            by_cases hv : ((clusterBFS dets maxD [i]
                ((List.range dets.length).filter fun j =>
                  !(processed.contains j) && j != i) [i]).filterMap
                  (validEntry dets)).length < 2
            · rw [if_pos hv] at h
              exact ih h
            · rw [if_neg hv] at h
              rcases List.mem_cons.mp h with heq | hmem
              · refine ⟨_, heq, Nat.le_of_not_lt hv, ?_⟩
                intro v hvmem
                obtain ⟨j, _, hj⟩ := List.mem_filterMap.mp hvmem
                exact validEntry_facts hj
              · exact ih hmem
          · rw [if_neg h2] at h
            exact ih h

lemma addToGroup_mem {gs : List (Option TimeVal × List Item)} {k : Option TimeVal}
    {d : Item} {kk : Option TimeVal} {ds : List Item}
    (h : (kk, ds) ∈ addToGroup gs k d) :
    ∀ x ∈ ds, (∃ ds', (kk, ds') ∈ gs ∧ x ∈ ds') ∨ x = d := by
  induction gs with
  | nil =>
    intro x hx
    have heq := List.mem_singleton.mp h
    injection heq with hkk hds
    subst hds
    right
    simpa using hx
  | cons g rest ih =>
    intro x hx
    obtain ⟨k', ds'⟩ := g
    by_cases hk : k' = k
    · rw [addToGroup, if_pos hk] at h
      rcases List.mem_cons.mp h with heq | hmem
      · injection heq with hkk hds
        subst hkk
        subst hds
        rcases List.mem_append.mp hx with h1 | h1
        · exact Or.inl ⟨ds', List.mem_cons_self _ _, h1⟩
        · right
          simpa using h1
      · exact Or.inl ⟨ds, List.mem_cons_of_mem _ hmem, hx⟩
    · rw [addToGroup, if_neg hk] at h
      rcases List.mem_cons.mp h with heq | hmem
      · injection heq with hkk hds
        subst hkk
        subst hds
        exact Or.inl ⟨ds, List.mem_cons_self _ _, hx⟩
      · rcases ih hmem x hx with ⟨ds2, hds2, hx2⟩ | hxd
        · exact Or.inl ⟨ds2, List.mem_cons_of_mem _ hds2, hx2⟩
        · exact Or.inr hxd

lemma groupByDate_aux :
    ∀ (l : List Item) (acc : List (Option TimeVal × List Item))
      (kk : Option TimeVal) (ds : List Item),
      (kk, ds) ∈ l.foldl (fun a d => addToGroup a d.date d) acc →
      ∀ x ∈ ds, (∃ ds', (kk, ds') ∈ acc ∧ x ∈ ds') ∨ x ∈ l := by
  intro l
  induction l with
  | nil =>
    intro acc kk ds h x hx
    exact Or.inl ⟨ds, h, hx⟩
  | cons d rest ih =>
    intro acc kk ds h x hx
    rcases ih (addToGroup acc d.date d) kk ds h x hx with ⟨ds', hds', hx'⟩ | hx'
    · rcases addToGroup_mem hds' x hx' with ⟨ds2, hds2, hx2⟩ | hxd
      · exact Or.inl ⟨ds2, hds2, hx2⟩
      · exact Or.inr (hxd ▸ List.mem_cons_self d rest)
    · exact Or.inr (List.mem_cons_of_mem d hx')

lemma groupByDate_sub {l : List Item} {kk : Option TimeVal} {ds : List Item}
    (h : (kk, ds) ∈ groupByDate l) : ∀ x ∈ ds, x ∈ l := by
  intro x hx
  rcases groupByDate_aux l [] kk ds h x hx with ⟨ds', hds', _⟩ | hx'
  · cases hds'
  · exact hx'

/-- Every cluster returned by `detect_proximity_clusters` is a
`mkCluster` over ≥ 2 valid-coordinate members drawn from the input
detections. -/
lemma detectProximityClusters_mem {sar : List Item} {maxD : ℝ} {sdo : Bool}
    {c : Cluster} (h : c ∈ detectProximityClusters sar maxD sdo) :
    ∃ (date? : Option TimeVal) (valid : List (ℚ × ℚ × Item)),
      c = mkCluster date? valid ∧ 2 ≤ valid.length ∧
      ∀ v ∈ valid, v.2.2 ∈ sar ∧ detLat v.2.2 = some v.1 ∧
        detLon v.2.2 = some v.2.1 := by
  unfold detectProximityClusters at h
  by_cases hemp : sar.isEmpty
  · rw [if_pos hemp] at h
    cases h
  · rw [if_neg hemp] at h
    rw [List.mem_mergeSort] at h
    cases sdo with
    | true =>
      simp only [if_true] at h
      obtain ⟨g, hg, hc⟩ := List.mem_flatMap.mp h
      have hgmem : g ∈ groupByDate sar := (List.mem_filter.mp hg).1
      obtain ⟨valid, hceq, h2, hfacts⟩ := findClustersLoop_mem hc
      refine ⟨g.1, valid, hceq, h2, fun v hv => ?_⟩
      obtain ⟨hmem, hla, hlo⟩ := hfacts v hv
      exact ⟨groupByDate_sub (show (g.1, g.2) ∈ groupByDate sar from hgmem) v.2.2 hmem,
        hla, hlo⟩
    | false =>
      simp only [Bool.false_eq_true, if_false] at h
      by_cases hlen : 2 ≤ sar.length
      · rw [if_pos hlen] at h
        obtain ⟨valid, hceq, h2, hfacts⟩ := findClustersLoop_mem h
        exact ⟨none, valid, hceq, h2, hfacts⟩
      · rw [if_neg hlen] at h
        cases h

lemma length_le_sum_of_one_le (l : List ℤ) (h : ∀ x ∈ l, 1 ≤ x) :
    (l.length : ℤ) ≤ l.sum := by
  induction l with
  | nil => simp
  | cons x xs ih =>
    have hx := h x (List.mem_cons_self x xs)
    have hxs := ih (fun y hy => h y (List.mem_cons_of_mem x hy))
    simp only [List.length_cons, List.sum_cons]
    push_cast
    linarith

/-- **C5**: every returned cluster has `detection_count ≥ 2`; its risk
tier is `high` iff `vessel_count ≥ 3` and `medium` iff `vessel_count`
is exactly 2; and under the precondition that every input detection's
`detections` count is an integer ≥ 1, `vessel_count ≥ detection_count`
and the tier is never `low`. -/
theorem spec_C5 (dets : List Item) (maxD : ℝ) (sdo : Bool) (c : Cluster)
    (hc : c ∈ detectProximityClusters dets maxD sdo) :
    2 ≤ c.detection_count ∧
    (c.risk_indicator = RiskTier.high ↔ 3 ≤ c.vessel_count) ∧
    (c.risk_indicator = RiskTier.medium ↔ c.vessel_count = 2) ∧
    ((∀ d ∈ dets, 1 ≤ d.detections.getD 1) →
      (c.detection_count : ℤ) ≤ c.vessel_count ∧
      c.risk_indicator ≠ RiskTier.low) := by
  obtain ⟨date?, valid, hceq, h2, hfacts⟩ := detectProximityClusters_mem hc
  subst hceq
  rw [mkCluster_detection_count, mkCluster_vessel_count, mkCluster_risk]
  refine ⟨h2, ?_, ?_, ?_⟩
  · split_ifs with h3 h4 <;> simp <;> omega
  · split_ifs with h3 h4 <;> simp <;> omega
  · intro hpre
    have hsum : ((valid.map (fun v => v.2.2.detections.getD 1)).length : ℤ) ≤
        (valid.map (fun v => v.2.2.detections.getD 1)).sum := by
      apply length_le_sum_of_one_le
      intro x hx
      obtain ⟨v, hv, hveq⟩ := List.mem_map.mp hx
      exact hveq ▸ hpre v.2.2 (hfacts v hv).1
    rw [List.length_map] at hsum
    constructor
    · exact hsum
    · have hge : (2 : ℤ) ≤ (valid.map (fun v => v.2.2.detections.getD 1)).sum := by
        have : (2 : ℤ) ≤ (valid.length : ℤ) := by exact_mod_cast h2
        linarith
      split_ifs with h3 h4 <;> simp <;> omega

lemma clusterBFS_nil_remaining (dets : List Item) (maxD : ℝ) :
    ∀ (q cl : List ℕ), clusterBFS dets maxD q [] cl = cl := by
  intro q
  induction q with
  | nil =>
    intro cl
    rw [clusterBFS]
  | cons cur rest ih =>
    intro cl
    rw [clusterBFS]
    rcases hla : detLat (dets.getD cur default) with _ | la
    · exact ih cl
    · rcases hlo : detLon (dets.getD cur default) with _ | lo
      · exact ih cl
      · simp only [List.filter_nil, List.append_nil]
        exact ih cl

lemma clusterBFS_complete (dets : List Item) (maxD : ℝ) (i : ℕ)
    (rem : List ℕ) (la lo : ℚ)
    (hla : detLat (dets.getD i default) = some la)
    (hlo : detLon (dets.getD i default) = some lo)
    (hpred : ∀ j ∈ rem, bfsPred dets maxD la lo j = true) :
    clusterBFS dets maxD [i] rem [i] = i :: rem := by
  rw [clusterBFS, hla, hlo]
  dsimp only
  have hfound : rem.filter (bfsPred dets maxD la lo) = rem :=
    List.filter_eq_self.mpr hpred
  have hrem : (rem.filter fun j => !(bfsPred dets maxD la lo j)) = [] := by
    rw [List.filter_eq_nil_iff]
    intro j hj
    simp [hpred j hj]
  rw [hfound, hrem]
  simp only [List.nil_append]
  have := clusterBFS_nil_remaining dets maxD rem ([i] ++ rem)
  rw [this]
  rfl

lemma findClustersLoop_allProcessed (dets : List Item) (maxD : ℝ)
    (date? : Option TimeVal) :
    ∀ (idxs processed : List ℕ),
      (∀ i ∈ idxs, processed.contains i = true) →
      findClustersLoop dets maxD date? idxs processed = [] := by
  intro idxs
  induction idxs with
  | nil =>
    intro processed _
    rw [findClustersLoop]
  | cons i is ih =>
    intro processed h
    rw [findClustersLoop, if_pos (h i (List.mem_cons_self i is))]
    exact ih processed fun j hj => h j (List.mem_cons_of_mem i hj)

lemma filterMap_validEntry_map (dets : List Item) :
    ∀ (idxs : List ℕ),
      (∀ j ∈ idxs, ∃ la lo : ℚ, detLat (dets.getD j default) = some la ∧
        detLon (dets.getD j default) = some lo) →
      (idxs.filterMap (validEntry dets)).map (fun v => v.2.2) =
        idxs.map (fun j => dets.getD j default) ∧
      (idxs.filterMap (validEntry dets)).length = idxs.length := by
  intro idxs
  induction idxs with
  | nil => exact fun _ => ⟨rfl, rfl⟩
  | cons j js ih =>
    intro h
    obtain ⟨la, lo, hla, hlo⟩ := h j (List.mem_cons_self j js)
    have hj : validEntry dets j = some (la, lo, dets.getD j default) := by
      unfold validEntry
      rw [hla, hlo]
    obtain ⟨ih1, ih2⟩ := ih fun x hx => h x (List.mem_cons_of_mem j hx)
    constructor
    · rw [List.filterMap_cons, hj, List.map_cons, List.map_cons, ih1]
    · rw [List.filterMap_cons, hj, List.length_cons, List.length_cons, ih2]

lemma map_getD_range {α : Type} [Inhabited α] :
    ∀ (l : List α), (List.range l.length).map (fun j => l.getD j default) = l := by
  intro l
  induction l with
  | nil => rfl
  | cons x xs ih =>
    rw [List.length_cons, List.range_succ_eq_map, List.map_cons, List.map_map]
    have h2 : ((fun j => (x :: xs).getD j default) ∘ Nat.succ) =
        (fun j => xs.getD j default) := by
      funext j
      simp [Function.comp, List.getD_cons_succ]
    rw [h2, ih]
    simp

lemma groupByDate_const_aux (k : Option TimeVal) :
    ∀ (l : List Item) (pre : List Item),
      (∀ d ∈ l, d.date = k) →
      l.foldl (fun a d => addToGroup a d.date d) [(k, pre)] = [(k, pre ++ l)] := by
  intro l
  induction l with
  | nil =>
    intro pre _
    simp
  | cons d rest ih =>
    intro pre h
    have hd : d.date = k := h d (List.mem_cons_self d rest)
    rw [List.foldl_cons]
    have hstep : addToGroup [(k, pre)] d.date d = [(k, pre ++ [d])] := by
      rw [hd, addToGroup, if_pos rfl]
    rw [hstep, ih (pre ++ [d]) (fun x hx => h x (List.mem_cons_of_mem d hx))]
    simp

lemma groupByDate_const {dets : List Item} {k : Option TimeVal}
    (h : ∀ d ∈ dets, d.date = k) (hne : dets ≠ []) :
    groupByDate dets = [(k, dets)] := by
  cases dets with
  | nil => exact absurd rfl hne
  | cons d rest =>
    have hd : d.date = k := h d (List.mem_cons_self d rest)
    unfold groupByDate
    rw [List.foldl_cons]
    have hstep : addToGroup [] d.date d = [(k, [d])] := by
      rw [hd]
      rfl
    rw [hstep, groupByDate_const_aux k rest [d]
      (fun x hx => h x (List.mem_cons_of_mem d hx))]
    rfl

/-- Under a single shared date, valid coordinates everywhere and all
pairwise distances within the bound, `detect_proximity_clusters`
returns exactly the one cluster built from all detections. -/
lemma detect_single_cluster (dets : List Item) (maxD : ℝ) (k : Option TimeVal)
    (hlen : 2 ≤ dets.length)
    (hdate : ∀ d ∈ dets, d.date = k)
    (hval : ∀ d ∈ dets, ∃ la lo : ℚ, detLat d = some la ∧ detLon d = some lo)
    (hpair : ∀ d ∈ dets, ∀ d' ∈ dets, ∀ la lo la' lo' : ℚ,
      detLat d = some la → detLon d = some lo →
      detLat d' = some la' → detLon d' = some lo' →
      haversineDistance (la : ℝ) (lo : ℝ) (la' : ℝ) (lo' : ℝ) ≤ maxD) :
    detectProximityClusters dets maxD true =
      [mkCluster k ((List.range dets.length).filterMap (validEntry dets))] := by
  have hne : dets ≠ [] := by
    intro h
    rw [h] at hlen
    simp at hlen
  have hvalIdx : ∀ j, j < dets.length → ∃ la lo : ℚ,
      detLat (dets.getD j default) = some la ∧
      detLon (dets.getD j default) = some lo :=
    fun j hj => hval (dets.getD j default) (gdMem dets j default hj)
  obtain ⟨m, hm⟩ : ∃ m, dets.length = m + 2 := ⟨dets.length - 2, by omega⟩
  have hrange : List.range dets.length = 0 :: List.map Nat.succ (List.range (m + 1)) := by
    rw [hm]
    exact List.range_succ_eq_map (m + 1)
  obtain ⟨la0, lo0, hla0, hlo0⟩ := hvalIdx 0 (by omega)
  -- the surviving candidate indices after excluding the seed
  have hremain : ((List.range dets.length).filter fun j =>
      !(([] : List ℕ).contains j) && j != 0) = List.map Nat.succ (List.range (m + 1)) := by
    rw [hrange]
    rw [List.filter_cons]
    simp only [List.contains_nil, Bool.not_false, Bool.true_and, bne_self_eq_false,
      Bool.false_eq_true, if_false]
    apply List.filter_eq_self.mpr
    intro x hx
    obtain ⟨j', _, hj'⟩ := List.mem_map.mp hx
    simp [← hj']
  have hpred : ∀ j ∈ List.map Nat.succ (List.range (m + 1)),
      bfsPred dets maxD la0 lo0 j = true := by
    intro j hj
    obtain ⟨j', hj', hjeq⟩ := List.mem_map.mp hj
    have hjlt : j < dets.length := by
      rw [hm]
      rw [List.mem_range] at hj'
      omega
    obtain ⟨laj, loj, hlaj, hloj⟩ := hvalIdx j hjlt
    unfold bfsPred
    rw [hlaj, hloj]
    exact decide_eq_true
      (hpair (dets.getD 0 default) (gdMem dets 0 default (by omega))
        (dets.getD j default) (gdMem dets j default hjlt)
        la0 lo0 laj loj hla0 hlo0 hlaj hloj)
  have hbfs : clusterBFS dets maxD [0] (List.map Nat.succ (List.range (m + 1))) [0] =
      List.range dets.length := by
    rw [clusterBFS_complete dets maxD 0 _ la0 lo0 hla0 hlo0 hpred, hrange]
  have hvlen := filterMap_validEntry_map dets (List.range dets.length)
    (fun j hj => hvalIdx j (List.mem_range.mp hj))
  have hloop : findClustersLoop dets maxD k (List.range dets.length) [] =
      [mkCluster k ((List.range dets.length).filterMap (validEntry dets))] := by
    rw [hrange, findClustersLoop]
    rw [if_neg (by simp)]
    rw [hla0, hlo0]
    dsimp only
    rw [hremain, hbfs]
    rw [if_pos (by rw [List.length_range]; omega)]
    rw [if_neg (by
      rw [hvlen.2, List.length_range]
      omega)]
    rw [findClustersLoop_allProcessed dets maxD k _ _ (by
      intro i hi
      obtain ⟨j', hj', hjeq⟩ := List.mem_map.mp hi
      have : i ∈ List.range dets.length := by
        rw [List.mem_range, hm]
        rw [List.mem_range] at hj'
        omega
      simp only [List.nil_append]
      exact List.elem_iff.mpr this)]
    rw [hrange]
  unfold detectProximityClusters
  rw [if_neg (by simp [List.isEmpty_iff, hne])]
  simp only [if_true]
  rw [groupByDate_const hdate hne]
  have hfil : (([(k, dets)] : List (Option TimeVal × List Item)).filter
      fun g => 2 ≤ g.2.length) = [(k, dets)] := by
    simp [List.filter_cons, hlen]
  rw [hfil, List.flatMap_cons, List.flatMap_nil, List.append_nil]
  unfold findClustersForDate
  rw [hloop, List.mergeSort_singleton]

lemma mem_pairs {α : Type} {p : α × α} :
    ∀ {l : List α}, p ∈ pairs l → p.1 ∈ l ∧ p.2 ∈ l := by
  intro l
  induction l with
  | nil => intro h; cases h
  | cons x xs ih =>
    intro h
    rcases List.mem_append.mp h with h1 | h1
    · obtain ⟨y, hy, hyeq⟩ := List.mem_map.mp h1
      rw [← hyeq]
      exact ⟨List.mem_cons_self x xs, List.mem_cons_of_mem x hy⟩
    · obtain ⟨ha, hb⟩ := ih h1
      exact ⟨List.mem_cons_of_mem x ha, List.mem_cons_of_mem x hb⟩

lemma foldl_max_zero {α : Type} (f : α → ℝ) :
    ∀ (pl : List α), (∀ p ∈ pl, f p = 0) →
      pl.foldl (fun m p => max m (f p)) 0 = 0 := by
  intro pl
  induction pl with
  | nil => intro _; rfl
  | cons p ps ih =>
    intro h
    rw [List.foldl_cons, h p (List.mem_cons_self p ps)]
    rw [show max (0 : ℝ) 0 = 0 from by simp]
    exact ih fun q hq => h q (List.mem_cons_of_mem p hq)

lemma maxPairDist_zero (valid : List (ℚ × ℚ × Item)) (la lo : ℚ)
    (h : ∀ v ∈ valid, v.1 = la ∧ v.2.1 = lo) : maxPairDist valid = 0 := by
  unfold maxPairDist
  apply foldl_max_zero
  intro p hp
  obtain ⟨h1, h2⟩ := mem_pairs hp
  obtain ⟨ha1, ha2⟩ := h p.1 h1
  obtain ⟨hb1, hb2⟩ := h p.2 h2
  rw [ha1, ha2, hb1, hb2]
  exact haversineDistance_self (la : ℝ) (lo : ℝ)

lemma roundTo2_zero : roundTo2 0 = 0 := by
  simp [roundTo2]

lemma mkCluster_maxdist (date? : Option TimeVal) (valid : List (ℚ × ℚ × Item)) :
    (mkCluster date? valid).max_distance_km = roundTo2 (maxPairDist valid) := rfl

/-- The detection used in the single- and two-element scenarios. -/
def cDet : Item :=
  { latitude := some 1, longitude := some 2, date := some (.dateOnly 0),
    detections := some 1 }

/-- **C6** (counterexample): a singleton input shares a single date and
trivially forms a single proximity group (its zero pairwise distances
are all < `max_distance_km`), yet `detect_clusters` returns no cluster
at all — not one cluster with `detection_count = 1` as the claim,
read literally, requires: singleton components are discarded. -/
theorem counterexample_C6 : detectProximityClusters [cDet] 5 true = [] := by
  unfold detectProximityClusters
  rw [if_neg (by simp)]
  simp only [if_true]
  rw [show groupByDate [cDet] = [(some (.dateOnly 0), [cDet])] from rfl]
  simp [List.filter_cons]

/-- **C6** (amended: for inputs of size ≥ 2 with extractable
coordinates): the empty input yields the empty output; and for ≥ 2
detections sharing a single date, whose coordinate chains all produce
values, with all pairwise distances < `max_distance_km`,
`detect_clusters` (with `same_date_only = true`) returns exactly one
cluster whose `detection_count` equals the input size and which
contains all the detections; when all the detections are identical,
its `max_internal_distance_km` is 0. -/
theorem spec_C6 :
    (∀ (maxD : ℝ) (sdo : Bool), detectProximityClusters [] maxD sdo = []) ∧
    (∀ (dets : List Item) (maxD : ℝ) (k : Option TimeVal),
      2 ≤ dets.length →
      (∀ d ∈ dets, d.date = k) →
      (∀ d ∈ dets, ∃ la lo : ℚ, detLat d = some la ∧ detLon d = some lo) →
      (∀ d ∈ dets, ∀ d' ∈ dets, ∀ la lo la' lo' : ℚ,
        detLat d = some la → detLon d = some lo →
        detLat d' = some la' → detLon d' = some lo' →
        haversineDistance (la : ℝ) (lo : ℝ) (la' : ℝ) (lo' : ℝ) < maxD) →
      ∃ c, detectProximityClusters dets maxD true = [c] ∧
        c.detection_count = dets.length ∧ c.detections = dets ∧
        ((∀ d ∈ dets, ∀ d' ∈ dets, d = d') → c.max_distance_km = 0)) := by
  constructor
  · intro maxD sdo
    rfl
  · intro dets maxD k hlen hdate hval hpair
    have heq := detect_single_cluster dets maxD k hlen hdate hval
      (fun d hd d' hd' la lo la' lo' h1 h2 h3 h4 =>
        le_of_lt (hpair d hd d' hd' la lo la' lo' h1 h2 h3 h4))
    have hvlen := filterMap_validEntry_map dets (List.range dets.length)
      (fun j hj => by
        obtain ⟨la, lo, h1, h2⟩ := hval (dets.getD j default)
          (gdMem dets j default (List.mem_range.mp hj))
        exact ⟨la, lo, h1, h2⟩)
    refine ⟨_, heq, ?_, ?_, ?_⟩
    · rw [mkCluster_detection_count, hvlen.2, List.length_range]
    · rw [mkCluster_detections, hvlen.1, map_getD_range]
    · intro hident
      rw [mkCluster_maxdist]
      cases dets with
      | nil => simp at hlen
      | cons d0 rest =>
        obtain ⟨la, lo, hla, hlo⟩ := hval d0 (List.mem_cons_self d0 rest)
        rw [maxPairDist_zero _ la lo, roundTo2_zero]
        intro v hv
        obtain ⟨j, _, hj⟩ := List.mem_filterMap.mp hv
        obtain ⟨hvmem, hvla, hvlo⟩ := validEntry_facts hj
        have hvd0 : v.2.2 = d0 :=
          hident v.2.2 hvmem d0 (List.mem_cons_self d0 rest)
        rw [hvd0] at hvla hvlo
        rw [hla] at hvla
        rw [hlo] at hvlo
        injection hvla with hvla
        injection hvlo with hvlo
        exact ⟨hvla.symm, hvlo.symm⟩

/-- The concrete two-identical-detection run used by the witnesses. -/
lemma detectClusters_pair :
    detectProximityClusters [cDet, cDet] 5 true =
      [mkCluster (some (.dateOnly 0)) [(1, 2, cDet), (1, 2, cDet)]] := by
  have h := detect_single_cluster [cDet, cDet] 5 (some (.dateOnly 0))
    (by norm_num)
    (by
      intro d hd
      rcases List.mem_cons.mp hd with rfl | hd
      · rfl
      · rcases List.mem_cons.mp hd with rfl | hd
        · rfl
        · cases hd)
    (by
      intro d hd
      rcases List.mem_cons.mp hd with rfl | hd
      · exact ⟨1, 2, rfl, rfl⟩
      · rcases List.mem_cons.mp hd with rfl | hd
        · exact ⟨1, 2, rfl, rfl⟩
        · cases hd)
    (by
      intro d hd d' hd' la lo la' lo' h1 h2 h3 h4
      have hd1 : d = cDet := by
        rcases List.mem_cons.mp hd with rfl | hd
        · rfl
        · rcases List.mem_cons.mp hd with rfl | hd
          · rfl
          · cases hd
      have hd2 : d' = cDet := by
        rcases List.mem_cons.mp hd' with rfl | hd'
        · rfl
        · rcases List.mem_cons.mp hd' with rfl | hd'
          · rfl
          · cases hd'
      subst hd1
      subst hd2
      rw [show detLat cDet = some 1 from rfl] at h1 h3
      rw [show detLon cDet = some 2 from rfl] at h2 h4
      injection h1 with h1
      injection h2 with h2
      injection h3 with h3
      injection h4 with h4
      subst h1
      subst h2
      subst h3
      subst h4
      rw [haversineDistance_self]
      norm_num)
  rw [h]
  rfl

/-- Witness for `spec_C6` at two identical detections. -/
theorem spec_C6_witness :
    ∃ c, detectProximityClusters [cDet, cDet] 5 true = [c] ∧
      c.detection_count = 2 ∧ c.detections = [cDet, cDet] ∧
      c.max_distance_km = 0 := by
  obtain ⟨c, h1, h2, h3, h4⟩ := spec_C6.2 [cDet, cDet] 5 (some (.dateOnly 0))
    (by norm_num)
    (by
      intro d hd
      rcases List.mem_cons.mp hd with rfl | hd
      · rfl
      · rcases List.mem_cons.mp hd with rfl | hd
        · rfl
        · cases hd)
    (by
      intro d hd
      rcases List.mem_cons.mp hd with rfl | hd
      · exact ⟨1, 2, rfl, rfl⟩
      · rcases List.mem_cons.mp hd with rfl | hd
        · exact ⟨1, 2, rfl, rfl⟩
        · cases hd)
    (by
      intro d hd d' hd' la lo la' lo' h1 h2 h3 h4
      have hd1 : d = cDet := by
        rcases List.mem_cons.mp hd with rfl | hd
        · rfl
        · rcases List.mem_cons.mp hd with rfl | hd
          · rfl
          · cases hd
      have hd2 : d' = cDet := by
        rcases List.mem_cons.mp hd' with rfl | hd'
        · rfl
        · rcases List.mem_cons.mp hd' with rfl | hd'
          · rfl
          · cases hd'
      subst hd1
      subst hd2
      rw [show detLat cDet = some 1 from rfl] at h1 h3
      rw [show detLon cDet = some 2 from rfl] at h2 h4
      injection h1 with h1
      injection h2 with h2
      injection h3 with h3
      injection h4 with h4
      subst h1
      subst h2
      subst h3
      subst h4
      rw [haversineDistance_self]
      norm_num)
  refine ⟨c, h1, h2, h3, h4 ?_⟩
  intro d hd d' hd'
  have hd1 : d = cDet := by
    rcases List.mem_cons.mp hd with rfl | hd
    · rfl
    · rcases List.mem_cons.mp hd with rfl | hd
      · rfl
      · cases hd
  have hd2 : d' = cDet := by
    rcases List.mem_cons.mp hd' with rfl | hd'
    · rfl
    · rcases List.mem_cons.mp hd' with rfl | hd'
      · rfl
      · cases hd'
  rw [hd1, hd2]

/-- Witness for `spec_C5` at the concrete two-detection cluster. -/
theorem spec_C5_witness :
    2 ≤ (mkCluster (some (.dateOnly 0)) [(1, 2, cDet), (1, 2, cDet)]).detection_count ∧
    (mkCluster (some (.dateOnly 0)) [(1, 2, cDet), (1, 2, cDet)]).risk_indicator ≠
      RiskTier.low := by
  have h := spec_C5 [cDet, cDet] 5 true
    (mkCluster (some (.dateOnly 0)) [(1, 2, cDet), (1, 2, cDet)])
    (by rw [detectClusters_pair]; exact List.mem_singleton.mpr rfl)
  refine ⟨h.1, (h.2.2.2 ?_).2⟩
  intro d hd
  have hd1 : d = cDet := by
    rcases List.mem_cons.mp hd with rfl | hd
    · rfl
    · rcases List.mem_cons.mp hd with rfl | hd
      · rfl
      · cases hd
  rw [hd1]
  norm_num [cDet]

/-- The equator detection carrying only `latitude`/`longitude` keys. -/
def zeroDet : Item :=
  { latitude := some 0, longitude := some 0, date := some (.dateOnly 0),
    detections := some 1 }

/-- **C9**: `detect_clusters` reads coordinates with falsy-`or` chains,
so a detection whose `latitude` (or `longitude`) is exactly 0.0 and
which lacks the alternate `lat` (`lon`) key is treated as missing
coordinates and never appears in any returned cluster; two identical
equator detections carrying only `latitude`/`longitude` produce no
cluster at all. -/
theorem spec_C9 :
    (∀ (dets : List Item) (maxD : ℝ) (sdo : Bool) (d : Item),
      ((d.latitude = some 0 ∧ d.lat = none) ∨
        (d.longitude = some 0 ∧ d.lon = none)) →
      ∀ c ∈ detectProximityClusters dets maxD sdo, d ∉ c.detections) ∧
    detectProximityClusters [zeroDet, zeroDet] 5 true = [] := by
  constructor
  · intro dets maxD sdo d hfalsy c hc hd
    obtain ⟨date?, valid, hceq, _, hfacts⟩ := detectProximityClusters_mem hc
    subst hceq
    rw [mkCluster_detections] at hd
    obtain ⟨v, hv, hveq⟩ := List.mem_map.mp hd
    obtain ⟨_, hla, hlo⟩ := hfacts v hv
    rw [hveq] at hla hlo
    rcases hfalsy with ⟨h1, h2⟩ | ⟨h1, h2⟩
    · rw [show detLat d = none from by simp [detLat, pyOr, h1, h2]] at hla
      cases hla
    · rw [show detLon d = none from by simp [detLon, pyOr, h1, h2]] at hlo
      cases hlo
  · unfold detectProximityClusters
    rw [if_neg (by simp)]
    simp only [if_true]
    rw [show groupByDate [zeroDet, zeroDet] =
      [(some (.dateOnly 0), [zeroDet, zeroDet])] from rfl]
    rw [show (([(some (TimeVal.dateOnly 0), [zeroDet, zeroDet])] :
        List (Option TimeVal × List Item)).filter fun g => 2 ≤ g.2.length) =
      [(some (TimeVal.dateOnly 0), [zeroDet, zeroDet])] from by
        simp [List.filter_cons]]
    rw [List.flatMap_cons, List.flatMap_nil, List.append_nil]
    unfold findClustersForDate
    rw [show List.range ([zeroDet, zeroDet].length) = [0, 1] from rfl]
    rw [findClustersLoop]
    rw [if_neg (by simp)]
    rw [show detLat ([zeroDet, zeroDet].getD 0 default) = none from rfl]
    dsimp only
    rw [findClustersLoop]
    rw [if_neg (by simp)]
    rw [show detLat ([zeroDet, zeroDet].getD 1 default) = none from rfl]
    dsimp only
    rw [findClustersLoop]
    exact List.mergeSort_nil

/-- Witness for `spec_C9`: the equator detection is not a member of the
concrete cluster produced from the two valid detections. -/
theorem spec_C9_witness :
    zeroDet ∉ (mkCluster (some (.dateOnly 0))
      [(1, 2, cDet), (1, 2, cDet)]).detections :=
  spec_C9.1 [cDet, cDet] 5 true zeroDet (Or.inl ⟨rfl, rfl⟩)
    (mkCluster (some (.dateOnly 0)) [(1, 2, cDet), (1, 2, cDet)])
    (by rw [detectClusters_pair]; exact List.mem_singleton.mpr rfl)
